import Mathlib

/-!
Verification development for the BalatroMultiplayerServer repository.

The Rust sources are shallowly embedded:
* `F` models an IEEE `f64`: NaN, the two infinities, and finite values.
  Finite values are carried exactly as rationals; rounding of arithmetic is
  not modelled (the verified claims never depend on rounding).  The two
  transcendental operations used by the sources (`f64::log10`,
  `10_f64.powf`) are taken as components of an `FModel` parameter, since no
  verified claim depends on their values.
* `TalismanNumber` (src/talisman_number.rs) with its parsing, magnitude
  estimation, comparison and addition.
* the lobby state machine (src/lobby/lobby.rs, src/lobby/handlers.rs,
  src/lobby/task.rs): lobby state is a record, the `HashMap` of players is
  an insertion-ordered association list, and message fan-out is returned as
  an explicit list of (destination, message) pairs.
-/

set_option maxRecDepth 8000

/-- Model of an `f64` value: NaN, plus/minus infinity, or an exact finite
rational.  Rounding is idealised (finite arithmetic is exact). -/
inductive F : Type where
  | nan : F
  | inf : F
  | ninf : F
  | fin : ℚ → F
deriving DecidableEq, Repr

/-- `f64` `<` (IEEE partial comparison: any comparison with NaN is false). -/
def F.flt : F → F → Bool
  | .nan, _ => false
  | _, .nan => false
  | .ninf, .ninf => false
  | .ninf, _ => true
  | _, .ninf => false
  | .inf, _ => false
  | .fin _, .inf => true
  | .fin a, .fin b => decide (a < b)

/-- `f64` `<=` (false whenever an operand is NaN). -/
def F.fle : F → F → Bool
  | .nan, _ => false
  | _, .nan => false
  | .ninf, _ => true
  | _, .ninf => false
  | _, .inf => true
  | .inf, _ => false
  | .fin a, .fin b => decide (a ≤ b)

/-- `f64` `==` (IEEE equality: NaN is equal to nothing, including itself). -/
def F.feq : F → F → Bool
  | .fin a, .fin b => decide (a = b)
  | .inf, .inf => true
  | .ninf, .ninf => true
  | _, _ => false

/-- `f64::is_nan`. -/
def F.isNaN : F → Bool
  | .nan => true
  | _ => false

/-- `f64::is_infinite`. -/
def F.isInf : F → Bool
  | .inf => true
  | .ninf => true
  | _ => false

/-- `f64::is_finite`. -/
def F.isFinite : F → Bool
  | .fin _ => true
  | _ => false

/-- `f64` negation. -/
def F.neg : F → F
  | .nan => .nan
  | .inf => .ninf
  | .ninf => .inf
  | .fin q => .fin (-q)

/-- `f64::abs`. -/
def F.fabs : F → F
  | .nan => .nan
  | .inf => .inf
  | .ninf => .inf
  | .fin q => .fin |q|

/-- `f64` addition (exact on finite values; IEEE special-value rules). -/
def F.fadd : F → F → F
  | .nan, _ => .nan
  | _, .nan => .nan
  | .inf, .ninf => .nan
  | .ninf, .inf => .nan
  | .inf, _ => .inf
  | _, .inf => .inf
  | .ninf, _ => .ninf
  | _, .ninf => .ninf
  | .fin a, .fin b => .fin (a + b)

/-- `f64` subtraction. -/
def F.fsub (a b : F) : F := F.fadd a (F.neg b)

/-- `f64` multiplication (exact on finite values; `inf * 0 = NaN`). -/
def F.fmul : F → F → F
  | .nan, _ => .nan
  | _, .nan => .nan
  | .inf, .inf => .inf
  | .inf, .ninf => .ninf
  | .ninf, .inf => .ninf
  | .ninf, .ninf => .inf
  | .inf, .fin q => if q = 0 then .nan else if 0 < q then .inf else .ninf
  | .fin q, .inf => if q = 0 then .nan else if 0 < q then .inf else .ninf
  | .ninf, .fin q => if q = 0 then .nan else if 0 < q then .ninf else .inf
  | .fin q, .ninf => if q = 0 then .nan else if 0 < q then .ninf else .inf
  | .fin a, .fin b => .fin (a * b)

/-- `f64::max`: ignores a NaN operand (returns the other one). -/
def F.fmax (a b : F) : F :=
  match a, b with
  | .nan, y => y
  | x, .nan => x
  | x, y => if F.flt x y then y else x

/-- `f64::partial_cmp`: `none` exactly when an operand is NaN. -/
def F.cmpOpt (a b : F) : Option Ordering :=
  match a, b with
  | .nan, _ => none
  | _, .nan => none
  | x, y => some (if F.flt x y then .lt else if F.feq x y then .eq else .gt)

/-- Model of Rust `u32::from_be_bytes` input space: the reader loop treats
the declared frame length as an arbitrary natural below `2^32`. -/
abbrev U32 := Nat

/-- `TalismanNumber` (src/talisman_number.rs): the four wire shapes of a
score. -/
inductive TalismanNumber : Type where
  | Regular : F → TalismanNumber
  | Big : F → F → TalismanNumber
  | Omega : List F → Int → TalismanNumber
  | NotationString : String → TalismanNumber
deriving DecidableEq, Repr

/-- `TalismanError` (payload strings of `ParseError` are dropped: no claim
inspects them). -/
inductive TalismanError : Type where
  | InvalidFormat : TalismanError
  | ParseError : TalismanError
deriving DecidableEq, Repr

/-- The two transcendental `f64` operations used by
src/talisman_number.rs.  `log10` models `f64::log10` and `pow10` models
`10_f64.powf`; they are kept abstract because no verified claim depends on
their values (all theorems hold for every choice). -/
structure FModel : Type where
  log10 : F → F
  pow10 : F → F

namespace TalismanNumber

/-- Rust `str::starts_with(char)` on the character list of a string. -/
def listStartsWith (cs : List Char) (c : Char) : Bool :=
  match cs with
  | [] => false
  | a :: _ => a = c

/-- Rust `str::contains(&str)`: the pattern occurs as a contiguous
subsequence. -/
def containsSeq (pat : List Char) : List Char → Bool
  | [] => pat.isEmpty
  | c :: t => pat.isPrefixOf (c :: t) || containsSeq pat t

/-- Rust `str::split(char)` (always at least one piece). -/
def splitOnChar (sep : Char) : List Char → List (List Char)
  | [] => [[]]
  | c :: t =>
      if c = sep then [] :: splitOnChar sep t
      else
        match splitOnChar sep t with
        | [] => [[c]]
        | h :: r => (c :: h) :: r

/-- `TalismanNumber::is_negative` (src/talisman_number.rs). -/
def is_negative : TalismanNumber → Bool
  | .Regular n => F.flt n (.fin 0)
  | .Big m _ => F.flt m (.fin 0)
  | .Omega _ sign => decide (sign < 0)
  | .NotationString s => listStartsWith s.toList '-'

/-- Number of leading `e` characters (`chars().take_while(..).count()`). -/
def leadingECount (cs : List Char) : Nat := (cs.takeWhile (fun c => c = 'e')).length

/-- `TalismanNumber::estimate_magnitude` (src/talisman_number.rs).
`M.log10` stands for `f64::log10`. -/
def estimate_magnitude (M : FModel) : TalismanNumber → F
  | .Regular n =>
      if n.isInf then .inf
      else if n.isNaN then .ninf
      else F.fmax (M.log10 n.fabs) (.fin 0)
  | .Big _ e => e
  | .Omega array _ =>
      match array with
      | [] => .fin 0
      | [a] => F.fmax (M.log10 a) (.fin 0)
      | a :: rest => F.fadd a (.fin ((rest.length : ℚ) * 1000))
  | .NotationString s =>
      if containsSeq "##".toList s.toList then .fin 1000000
      else if s.toList.contains '#' then
        F.fadd (.fin 1000) (.fin ((s.toList.countP (fun c => c = '#') : ℚ) * 100))
      else .fin ((leadingECount s.toList : ℚ) * 1000)

/-- `impl Ord for TalismanNumber` (src/talisman_number.rs): sign first,
then estimated magnitude; an incomparable magnitude pair (NaN) collapses to
`Equal` via `unwrap_or(Ordering::Equal)`. -/
def cmpT (M : FModel) (x y : TalismanNumber) : Ordering :=
  match x.is_negative, y.is_negative with
  | true, false => .lt
  | false, true => .gt
  | _, _ =>
      match F.cmpOpt (estimate_magnitude M x) (estimate_magnitude M y) with
      | some o => o
      | none => .eq

/-- Derived `PartialEq for TalismanNumber`: structural equality with
`f64` `==` on the float components. -/
def beqT : TalismanNumber → TalismanNumber → Bool
  | .Regular a, .Regular b => F.feq a b
  | .Big m1 e1, .Big m2 e2 => F.feq m1 m2 && F.feq e1 e2
  | .Omega a1 s1, .Omega a2 s2 =>
      (a1.length = a2.length && (List.zip a1 a2).all (fun p => F.feq p.1 p.2)) && s1 == s2
  | .NotationString a, .NotationString b => a == b
  | _, _ => false

/-- `TalismanNumber::add` (src/talisman_number.rs).  `M.pow10` stands for
`10_f64.powf`. -/
def add (M : FModel) (x y : TalismanNumber) : Except TalismanError TalismanNumber :=
  match x, y with
  | .Regular a, .Regular b => .ok (.Regular (F.fadd a b))
  | .Big m1 e1, .Big m2 e2 =>
      if F.flt (.fin 15) (F.fabs (F.fsub e1 e2)) then
        if F.flt e2 e1 then .ok (.Big m1 e1) else .ok (.Big m2 e2)
      else
        let maxE := F.fmax e1 e2
        let am1 := F.fmul m1 (M.pow10 (F.fsub e1 maxE))
        let am2 := F.fmul m2 (M.pow10 (F.fsub e2 maxE))
        .ok (.Big (F.fadd am1 am2) maxE)
  | _, _ =>
      if F.fle (estimate_magnitude M y) (estimate_magnitude M x) then .ok x else .ok y

end TalismanNumber

/-! ### Model of Rust `str::parse::<f64>()`

The decimal grammar of `f64::from_str`: optional sign, then a special word
(`inf` / `infinity` / `nan`, ASCII case-insensitive) or digits with an
optional fraction and an optional `e`/`E` exponent; the whole string must
be consumed.  Finite values are exact rationals (rounding idealised);
values whose magnitude reaches `2^1024` overflow to infinity (the sub-ulp
band just below `2^1024` is idealised as finite). -/

/-- Numeric value of a digit string (most significant first). -/
def digitsVal (l : List Char) : Nat :=
  l.foldl (fun a c => a * 10 + (c.toNat - '0'.toNat)) 0

/-- The decimal-number part of the `f64` grammar (input without sign). -/
def parseDecCore (cs : List Char) : Option ℚ :=
  let ip := cs.takeWhile Char.isDigit
  let r1 := cs.drop ip.length
  let fp := match r1 with
    | '.' :: t => t.takeWhile Char.isDigit
    | _ => []
  let r2 := match r1 with
    | '.' :: t => t.drop (t.takeWhile Char.isDigit).length
    | _ => r1
  if ip.length + fp.length = 0 then none
  else
    let mant : ℚ := (digitsVal ip : ℚ) + (digitsVal fp : ℚ) / (10 : ℚ) ^ fp.length
    match r2 with
    | [] => some mant
    | c :: t =>
        if c = 'e' ∨ c = 'E' then
          let eneg : Bool := match t with
            | '-' :: _ => true
            | _ => false
          let t2 := match t with
            | '-' :: u => u
            | '+' :: u => u
            | u => u
          let ed := t2.takeWhile Char.isDigit
          if ed.length = 0 ∨ t2.drop ed.length ≠ [] then none
          else
            let ev : ℤ := if eneg then -(digitsVal ed : ℤ) else (digitsVal ed : ℤ)
            some (mant * (10 : ℚ) ^ ev)
        else none

/-- Overflow bound of the `f64` parse model. -/
def f64OverflowBound : ℚ := (2 : ℚ) ^ 1024

/-- Model of Rust `str::parse::<f64>()` on a character list (see the
section comment). -/
def rustParseF64 (cs : List Char) : Option F :=
  let neg : Bool := match cs with
    | '-' :: _ => true
    | _ => false
  let body := match cs with
    | '-' :: r => r
    | '+' :: r => r
    | r => r
  let lower := body.map Char.toLower
  if lower = "inf".toList ∨ lower = "infinity".toList then
    some (if neg then F.ninf else F.inf)
  else if lower = "nan".toList then some F.nan
  else
    match parseDecCore body with
    | none => none
    | some q =>
        let q := if neg then -q else q
        if f64OverflowBound ≤ |q| then some (if q < 0 then F.ninf else F.inf)
        else some (F.fin q)

namespace TalismanNumber

/-- `str::parse::<f64>()` wrapped into the `TalismanError` result used by
the parsing helpers (`map_err(|e| ParseError(..))`). -/
def parseF64E (cs : List Char) : Except TalismanError F :=
  match rustParseF64 cs with
  | some v => .ok v
  | none => .error .ParseError

/-- `TalismanNumber::parse_scientific_notation` (src/talisman_number.rs). -/
def parseScientific (cs : List Char) : Except TalismanError TalismanNumber := do
  match splitOnChar 'e' cs with
  | [a, b] =>
      let m ← parseF64E a
      let e ← parseF64E b
      return .Big m e
  | _ => .error .ParseError

/-- `TalismanNumber::parse_double_exponential` (src/talisman_number.rs);
`M.pow10` stands for `10_f64.powf`. -/
def parseDoubleExponential (M : FModel) (cs : List Char) : Except TalismanError TalismanNumber := do
  if cs.contains 'e' then
    match splitOnChar 'e' cs with
    | [a, b] =>
        let m ← parseF64E a
        let e ← parseF64E b
        return .Omega [F.fmul m (M.pow10 e), .fin 2] 1
    | _ => return .NotationString (('e' :: cs).asString)
  else
    let v ← parseF64E cs
    return .Omega [v, .fin 1] 1

/-- `TalismanNumber::from_notation_string` (src/talisman_number.rs).
The name avoids the snake_case of the source for lexical reasons only;
string processing happens on the character list, `replace(",", "")` being
the comma filter. -/
def fromNotationString (M : FModel) (s : String) : Except TalismanError TalismanNumber :=
  if s.isEmpty then .ok (.Regular (.fin 0))
  else if s = "Infinity" ∨ s = "inf" then .ok (.Regular .inf)
  else if s = "nan" ∨ s = "NaN" then .ok (.Regular .nan)
  else
    let clean : List Char := s.toList.filter (fun c => c ≠ ',')
    if listStartsWith clean 'e' then
      if containsSeq "##".toList clean then .ok (.NotationString clean.asString)
      else if clean.contains '#' then .ok (.NotationString clean.asString)
      else if 1 < leadingECount clean then .ok (.NotationString clean.asString)
      else parseDoubleExponential M (clean.drop 1)
    else if clean.contains 'e' then
      match rustParseF64 clean with
      | some v => if v.isFinite then .ok (.Regular v) else parseScientific clean
      | none => parseScientific clean
    else
      match rustParseF64 clean with
      | some v => .ok (.Regular v)
      | none => .error .ParseError

end TalismanNumber

/-! ### Model of `serde_json::Value` and `TalismanNumber::from_value` -/

/-- Model of `serde_json::Value`.  A `num` carries the results of
`Number::as_f64` and `Number::as_i64` (either may be absent, e.g. for
arbitrary-precision numbers or out-of-range integers). -/
inductive Json : Type where
  | null : Json
  | bool : Bool → Json
  | num : Option F → Option Int → Json
  | str : String → Json
  | arr : List Json → Json
  | obj : List (String × Json) → Json

/-- `serde_json::Map::contains_key`. -/
def Json.hasKey (kvs : List (String × Json)) (k : String) : Bool :=
  (kvs.lookup k).isSome

/-- `Value::as_f64`. -/
def Json.as_f64 : Json → Option F
  | .num f _ => f
  | _ => none

/-- `Value::as_i64`. -/
def Json.as_i64 : Json → Option Int
  | .num _ i => i
  | _ => none

/-- `Value::as_array`. -/
def Json.as_array : Json → Option (List Json)
  | .arr xs => some xs
  | _ => none

namespace TalismanNumber

/-- `TalismanNumber::from_value` (src/talisman_number.rs). -/
def from_value (M : FModel) : Json → Except TalismanError TalismanNumber
  | .str s => fromNotationString M s
  | .num f _ => .ok (.Regular (f.getD (.fin 0)))
  | .obj kvs =>
      if Json.hasKey kvs "m" && Json.hasKey kvs "e" then
        let m := ((kvs.lookup "m").bind Json.as_f64).getD (.fin 0)
        let e := ((kvs.lookup "e").bind Json.as_f64).getD (.fin 0)
        .ok (.Big m e)
      else if Json.hasKey kvs "array" && Json.hasKey kvs "sign" then
        let array := (((kvs.lookup "array").bind Json.as_array).map
          (fun xs => xs.filterMap Json.as_f64)).getD []
        let sign := ((kvs.lookup "sign").bind Json.as_i64).getD 1
        .ok (.Omega array sign)
      else .error .InvalidFormat
  | _ => .error .InvalidFormat

end TalismanNumber

/-! ### Game modes, lobby options and per-player state

From src/game_mode.rs, src/lobby/game_state.rs and src/lobby/lobby.rs.
The sources reference a `Clash` game mode, `GameMode::get_max_players` and
`CLASH_BASE_DAMAGE` that are not defined in any file under src/; they are
modelled from the spec where indicated. -/

/-- `GameMode` (src/game_mode.rs).  Modelled from the spec: the `Clash`
variant is matched on by src/lobby/lobby.rs but missing from the enum in
src/game_mode.rs; the spec lists five modes, so it is included here. -/
inductive GameMode : Type where
  | Attrition : GameMode
  | Showdown : GameMode
  | Survival : GameMode
  | CoopSurvival : GameMode
  | Clash : GameMode
deriving DecidableEq, Repr

/-- `LobbyOptions` (src/game_mode.rs). -/
structure LobbyOptions : Type where
  back : String
  challenge : Int
  custom_seed : String
  death_on_round_loss : Bool
  different_decks : Bool
  different_seeds : Bool
  disable_live_and_timer_hud : Bool
  gamemode : GameMode
  gold_on_life_loss : Bool
  multiplayer_jokers : Bool
  no_gold_on_round_loss : Bool
  normal_bosses : Bool
  pvp_start_round : Int
  ruleset : String
  showdown_starting_antes : Int
  sleeve : String
  stake : Int
  starting_lives : Nat
  timer_base_seconds : Int
  timer_increment_seconds : Int
deriving DecidableEq, Repr

/-- `ATTRITION_DATA.default_options` (src/game_mode.rs). -/
def attritionDefaults : LobbyOptions where
  back := "Red Deck"
  challenge := 0
  custom_seed := "random"
  death_on_round_loss := false
  different_decks := false
  different_seeds := false
  disable_live_and_timer_hud := false
  gamemode := .Attrition
  gold_on_life_loss := true
  multiplayer_jokers := true
  no_gold_on_round_loss := false
  normal_bosses := false
  pvp_start_round := 2
  ruleset := "ruleset_mp_standard"
  showdown_starting_antes := 3
  sleeve := "sleeve_casl_none"
  stake := 1
  starting_lives := 4
  timer_base_seconds := 150
  timer_increment_seconds := 60

/-- `GameMode::get_default_options` (src/game_mode.rs).  Showdown and
Survival differ from Attrition only in `gamemode` and `pvp_start_round`;
CoopSurvival has its own table.  Modelled from the spec: Clash has no
table under src/, so its defaults reuse the Attrition values with the
`gamemode` field set to Clash. -/
def GameMode.get_default_options : GameMode → LobbyOptions
  | .Attrition => attritionDefaults
  | .Showdown => { attritionDefaults with gamemode := .Showdown }
  | .Survival => { attritionDefaults with gamemode := .Survival, pvp_start_round := 20 }
  | .CoopSurvival =>
      { attritionDefaults with
        gamemode := .CoopSurvival
        death_on_round_loss := true
        different_decks := true
        different_seeds := true
        ruleset := "ruleset_mp_coop"
        gold_on_life_loss := false
        multiplayer_jokers := false
        no_gold_on_round_loss := true
        normal_bosses := true
        starting_lives := 2 }
  | .Clash => { attritionDefaults with gamemode := .Clash }

/-- Modelled from the spec: `GameMode::get_max_players` is called by
`Lobby::new` (src/lobby/lobby.rs) but not defined under src/; the spec
fixes `max_players` at 2 for every mode except CoopSurvival (6). -/
def GameMode.get_max_players : GameMode → Nat
  | .CoopSurvival => 6
  | _ => 2

/-- `ClientProfile` (src/client.rs). -/
structure ClientProfile : Type where
  id : String
  username : String
  colour : Nat
  mod_hash : String
deriving DecidableEq, Repr

/-- `ClientLobbyState` (src/lobby/game_state.rs).  Modelled from the spec:
the `in_game` field is read and written throughout src/lobby/lobby.rs and
src/lobby/handlers.rs but missing from the struct declaration in the
snapshot; the spec lists it in ClientLobbyState, defaulting to false (a
player joins only while no game is running). -/
structure ClientLobbyState : Type where
  current_lobby : Option String
  is_ready : Bool
  first_ready : Bool
  is_cached : Bool
  is_host : Bool
  in_game : Bool
deriving DecidableEq, Repr

/-- `ClientGameState` (src/lobby/game_state.rs).  The `u8`/`u32` fields are
naturals; `lives` only ever changes by `saturating_sub`, which is `Nat`
subtraction. -/
structure ClientGameState : Type where
  ante : Nat
  round : Nat
  furthest_blind : Nat
  hands_left : Nat
  hands_max : Nat
  discards_left : Nat
  discards_max : Nat
  lives : Nat
  lives_blocker : Bool
  location : String
  skips : Nat
  score : TalismanNumber
  highest_score : TalismanNumber
  spent_in_shop : List Nat
  team : Nat
deriving DecidableEq, Repr

/-- `ClientGameState::default` (src/lobby/game_state.rs). -/
def ClientGameState.default : ClientGameState where
  ante := 0
  round := 1
  furthest_blind := 1
  hands_left := 4
  hands_max := 4
  discards_left := 3
  discards_max := 3
  lives := 2
  lives_blocker := false
  location := "loc_selecting"
  skips := 0
  score := .Regular (.fin 0)
  highest_score := .Regular (.fin 0)
  spent_in_shop := []
  team := 1

/-- `ClientLobbyEntry` (src/lobby/game_state.rs). -/
structure ClientLobbyEntry : Type where
  profile : ClientProfile
  lobby_state : ClientLobbyState
  game_state : ClientGameState
deriving DecidableEq, Repr

/-- `ClientLobbyEntry::new` (src/lobby/game_state.rs). -/
def ClientLobbyEntry.new (profile : ClientProfile) (lobby_code : String)
    (is_host : Bool) (starting_lives : Nat) : ClientLobbyEntry where
  profile := profile
  lobby_state :=
    { current_lobby := some lobby_code
      is_ready := is_host
      first_ready := false
      is_cached := false
      is_host := is_host
      in_game := false }
  game_state := { ClientGameState.default with lives := starting_lives }

/-- `ClientLobbyEntry::reset_for_game` (src/lobby/game_state.rs). -/
def ClientLobbyEntry.reset_for_game (e : ClientLobbyEntry) (starting_lives : Nat) : ClientLobbyEntry :=
  { e with
    lobby_state := { e.lobby_state with is_ready := false }
    game_state := { ClientGameState.default with lives := starting_lives } }

/-! ### Lobby state and messages

`Lobby` is from src/lobby/lobby.rs.  Its `HashMap<String, ClientLobbyEntry>`
is modelled as an insertion-ordered association list (iteration order of the
Rust `HashMap` is arbitrary; the list fixes one order). -/

/-- `Lobby` (src/lobby/lobby.rs). -/
structure Lobby : Type where
  code : String
  started : Bool
  boss_chips : TalismanNumber
  lobby_options : LobbyOptions
  stage : Int
  players : List (String × ClientLobbyEntry)
  max_players : Nat
deriving DecidableEq, Repr

/-- `ServerToClient` (src/messages/msg_server_to_client.rs); the two
`HashMap` payloads are association lists. -/
inductive ServerToClient : Type where
  | Connected : String → ServerToClient
  | KeepAliveResponse : ServerToClient
  | VersionOk : ServerToClient
  | Error : String → ServerToClient
  | JoinedLobby : String → Lobby → ServerToClient
  | PlayerJoinedLobby : ClientLobbyEntry → ServerToClient
  | PlayerLeftLobby : String → String → ServerToClient
  | UpdateLobbyOptions : LobbyOptions → ServerToClient
  | GameStarted : String → Int → ServerToClient
  | StartBlind : ServerToClient
  | GameStopped : ServerToClient
  | LoseGame : ServerToClient
  | WinGame : ServerToClient
  | ReceivePlayerJokers : String → String → ServerToClient
  | ReceivePlayerDeck : String → String → ServerToClient
  | SetBossBlind : String → ServerToClient
  | EndPvp : Bool → ServerToClient
  | GameStateUpdate : String → ClientGameState → ServerToClient
  | ResetPlayers : List ClientLobbyEntry → ServerToClient
  | LobbyReady : List (String × Bool) → ServerToClient
  | InGameStatuses : List (String × Bool) → ServerToClient
  | SendPhantom : String → ServerToClient
  | RemovePhantom : String → ServerToClient
  | Asteroid : String → ServerToClient
  | LetsGoGamblingNemesis : ServerToClient
  | EatPizza : Nat → ServerToClient
  | SoldJoker : ServerToClient
  | SpentLastShop : String → Nat → ServerToClient
  | StartAnteTimer : Nat → ServerToClient
  | PauseAnteTimer : Int → ServerToClient
  | Magnet : ServerToClient
  | MagnetResponse : String → ServerToClient
  | ReceivedMoney : ServerToClient
deriving DecidableEq, Repr

/-- Destination of an outbound message: `send_to`, `broadcast`, or
`broadcast_except` of the `LobbyBroadcaster` (src/lobby/broadcaster.rs). -/
inductive Dest : Type where
  | to : String → Dest
  | all : Dest
  | except : String → Dest
deriving DecidableEq, Repr

/-- One emitted message: destination and payload. -/
abbrev Out := Dest × ServerToClient

/-- `ClientToServer` (src/messages/msg_client_to_server.rs). -/
inductive ClientToServer : Type where
  | KeepAlive : ClientToServer
  | Version : String → ClientToServer
  | SetClientData : String → Nat → String → ClientToServer
  | CreateLobby : String → GameMode → ClientToServer
  | FailRound : ClientToServer
  | SendPlayerDeck : String → ClientToServer
  | SendPlayerJokers : String → ClientToServer
  | SetFurthestBlind : Nat → ClientToServer
  | JoinLobby : String → ClientToServer
  | LeaveLobby : ClientToServer
  | UpdateLobbyOptions : LobbyOptions → ClientToServer
  | SetReady : Bool → ClientToServer
  | PlayHand : TalismanNumber → Nat → ClientToServer
  | Discard : ClientToServer
  | SetBossBlind : String → TalismanNumber → ClientToServer
  | Skip : Nat → ClientToServer
  | SetLocation : String → ClientToServer
  | StartGame : String → Int → ClientToServer
  | StopGame : ClientToServer
  | UpdateHandsAndDiscards : Nat → Nat → ClientToServer
  | SendPhantom : String → ClientToServer
  | RemovePhantom : String → ClientToServer
  | Asteroid : String → ClientToServer
  | LetsGoGamblingNemesis : ClientToServer
  | EatPizza : Nat → ClientToServer
  | SoldJoker : ClientToServer
  | StartAnteTimer : Nat → ClientToServer
  | PauseAnteTimer : Int → ClientToServer
  | FailTimer : ClientToServer
  | SpentLastShop : Nat → ClientToServer
  | Magnet : ClientToServer
  | MagnetResponse : String → ClientToServer
  | SendMoney : String → ClientToServer
  | ReturnToLobby : ClientToServer
deriving DecidableEq, Repr

/-- External inputs of the lobby code: the abstract float operations, the
Clash damage schedule, and the generated seed.  Modelled from the spec:
`CLASH_BASE_DAMAGE` is indexed by src/lobby/lobby.rs but not defined under
src/ (the spec leaves the schedule implementation-defined), so it is an
arbitrary total function here; `seed8` stands for one output of
`time_based_string(8)` (src/utils.rs), which reads the system clock. -/
structure Ctx : Type where
  fm : FModel
  clash_base : Nat → Nat
  seed8 : String

/-- `HashMap::get_mut` followed by a mutation: rewrite the entry stored
under `pid` (keys of a `HashMap` are unique; the map-based form acts on
every pair carrying `pid`, which coincides under key uniqueness). -/
def updPlayer (ps : List (String × ClientLobbyEntry)) (pid : String)
    (f : ClientLobbyEntry → ClientLobbyEntry) : List (String × ClientLobbyEntry) :=
  ps.map (fun kv => if kv.1 = pid then (kv.1, f kv.2) else kv)

/-- `HashMap::insert`: replace the entry if the key is present, else add it
(at the end, fixing the modelled iteration order to insertion order). -/
def insertPlayer (ps : List (String × ClientLobbyEntry)) (pid : String)
    (e : ClientLobbyEntry) : List (String × ClientLobbyEntry) :=
  if (ps.lookup pid).isSome then
    ps.map (fun kv => if kv.1 = pid then (pid, e) else kv)
  else ps ++ [(pid, e)]

/-- Rust `Iterator::max` via `Ord::cmp`: `none` on an empty iterator, and
ties resolve to the later element (`std::cmp::max_by`). -/
def rustMax (M : FModel) : List TalismanNumber → Option TalismanNumber
  | [] => none
  | x :: xs =>
      some (xs.foldl (fun acc y => if TalismanNumber.cmpT M acc y = .gt then acc else y) x)

/-- Stable insertion step for `sortByCmp`. -/
def insertSorted (cmp : α → α → Ordering) (x : α) : List α → List α
  | [] => [x]
  | y :: ys => if cmp x y = .lt then x :: y :: ys else y :: insertSorted cmp x ys

/-- Stable sort by a comparator (Rust `slice::sort_by`). -/
def sortByCmp (cmp : α → α → Ordering) (l : List α) : List α :=
  l.foldr (insertSorted cmp) []

namespace Lobby

open TalismanNumber

/-- `Lobby::new` (src/lobby/lobby.rs). -/
def new (code ruleset : String) (game_mode : GameMode) : Lobby where
  code := code
  started := false
  boss_chips := .Regular (.fin 0)
  lobby_options := { game_mode.get_default_options with ruleset := ruleset }
  players := []
  stage := 0
  max_players := game_mode.get_max_players

/-- `Lobby::is_full` (src/lobby/lobby.rs). -/
def is_full (l : Lobby) : Bool := l.max_players ≤ l.players.length

/-- `Lobby::add_player` (src/lobby/lobby.rs); returns the updated lobby and
the inserted entry. -/
def add_player (l : Lobby) (player_id : String) (client_profile : ClientProfile) :
    Lobby × ClientLobbyEntry :=
  let is_host := l.players.isEmpty
  let entry := ClientLobbyEntry.new client_profile l.code is_host l.lobby_options.starting_lives
  ({ l with players := insertPlayer l.players player_id entry }, entry)

/-- `Lobby::remove_player` (src/lobby/lobby.rs). -/
def remove_player (l : Lobby) (player_id : String) : Lobby × Option ClientLobbyEntry :=
  ({ l with players := l.players.filter (fun kv => kv.1 ≠ player_id) },
   l.players.lookup player_id)

/-- `Lobby::promote_new_host` (src/lobby/lobby.rs): the first entry in
iteration order becomes host and ready. -/
def promote_new_host (l : Lobby) : Lobby × Option String :=
  match l.players with
  | [] => (l, none)
  | (id, e) :: rest =>
      ({ l with players :=
          (id, { e with lobby_state := { e.lobby_state with is_host := true, is_ready := true } }) :: rest },
       some id)

/-- `Lobby::is_player_host` (src/lobby/lobby.rs). -/
def is_player_host (l : Lobby) (player_id : String) : Bool :=
  ((l.players.lookup player_id).map (fun p => p.lobby_state.is_host)).getD false

/-- `Lobby::reset_ready_states` (src/lobby/lobby.rs). -/
def reset_ready_states (l : Lobby) : Lobby :=
  { l with players := l.players.map (fun kv =>
      (kv.1, { kv.2 with lobby_state := { kv.2.lobby_state with is_ready := false } })) }

/-- `Lobby::reset_ready_states_to_host_only` (src/lobby/lobby.rs). -/
def reset_ready_states_to_host_only (l : Lobby) : Lobby :=
  { l with players := l.players.map (fun kv =>
      (kv.1, { kv.2 with lobby_state :=
        { kv.2.lobby_state with is_ready := kv.2.lobby_state.is_host } })) }

/-- `Lobby::set_player_ready` (src/lobby/lobby.rs). -/
def set_player_ready (l : Lobby) (player_id : String) (is_ready : Bool) : Lobby :=
  { l with players := updPlayer l.players player_id (fun p =>
      { p with lobby_state := { p.lobby_state with is_ready := is_ready } }) }

/-- `Lobby::collect_ready_states` (src/lobby/lobby.rs). -/
def collect_ready_states (l : Lobby) : List (String × Bool) :=
  l.players.map (fun kv => (kv.1, kv.2.lobby_state.is_ready))

/-- `Lobby::reset_game_states` (src/lobby/lobby.rs). -/
def reset_game_states (l : Lobby) (in_game : Bool) : Lobby :=
  { l with players := l.players.map (fun kv =>
      let p := kv.2.reset_for_game l.lobby_options.starting_lives
      (kv.1, { p with lobby_state := { p.lobby_state with in_game := in_game } })) }

/-- `Lobby::start_game` (src/lobby/lobby.rs); `C.seed8` stands for the
`time_based_string(8)` output. -/
def start_game (C : Ctx) (l : Lobby) : Lobby :=
  let l := { l with started := true }
  let l :=
    if !l.lobby_options.different_seeds && l.lobby_options.custom_seed = "random" then
      { l with lobby_options := { l.lobby_options with custom_seed := C.seed8 } }
    else l
  l.reset_game_states true

/-- `Lobby::stop_game` (src/lobby/lobby.rs).  Note: this method is never
called from any file under src/. -/
def stop_game (l : Lobby) : Lobby :=
  let l := { l with started := false }
  let l := l.reset_game_states false
  { l with stage := 0, boss_chips := .Regular (.fin 0) }

/-- `Lobby::reset_scores` (src/lobby/lobby.rs). -/
def reset_scores (l : Lobby) : Lobby :=
  { l with players := l.players.map (fun kv =>
      (kv.1, { kv.2 with game_state :=
        { kv.2.game_state with
          score := .Regular (.fin 0)
          hands_left := kv.2.game_state.hands_max
          discards_left := kv.2.game_state.discards_max } })) }

/-- `Lobby::get_total_score` (src/lobby/lobby.rs): fold of
`acc.add(score).unwrap_or(acc)`. -/
def get_total_score (M : FModel) (l : Lobby) : TalismanNumber :=
  l.players.foldl
    (fun acc kv =>
      match TalismanNumber.add M acc kv.2.game_state.score with
      | .ok v => v
      | .error _ => acc)
    (.Regular (.fin 0))

/-- `Lobby::all_players_done` (src/lobby/lobby.rs). -/
def all_players_done (l : Lobby) : Bool :=
  (l.players.filter (fun kv => kv.2.lobby_state.in_game)).all
    (fun kv => kv.2.game_state.hands_left = 0)

/-- `Lobby::is_someone_dead` (src/lobby/lobby.rs). -/
def is_someone_dead (l : Lobby) : Bool :=
  l.players.any (fun kv => kv.2.game_state.lives = 0)

/-- `Lobby::get_max_furthest_blind` (src/lobby/lobby.rs). -/
def get_max_furthest_blind (l : Lobby) : Nat :=
  ((l.players.map (fun kv => kv.2.game_state.furthest_blind)).max?).getD 0

/-- `Lobby::get_survival_winners_losers` (src/lobby/lobby.rs). -/
def get_survival_winners_losers (l : Lobby) : List String × List String :=
  let m := l.get_max_furthest_blind
  ((l.players.filter (fun kv => kv.2.game_state.furthest_blind = m)).map (fun kv => kv.1),
   (l.players.filter (fun kv => kv.2.game_state.furthest_blind ≠ m)).map (fun kv => kv.1))

/-- `Lobby::check_round_victory` (src/lobby/lobby.rs).  The Clash arm
indexes `sorted_players[0]`; on an empty in-game set the Rust code would
panic there — that case is returned as a no-op here and is outside every
verified claim. -/
def check_round_victory (C : Ctx) (l : Lobby) : List String × List String :=
  match l.lobby_options.gamemode with
  | .CoopSurvival =>
      if cmpT C.fm (l.get_total_score C.fm) l.boss_chips = .gt then ([], [])
      else ([], l.players.map (fun kv => kv.1))
  | .Clash =>
      let sorted := sortByCmp
        (fun a b => cmpT C.fm b.2.game_state.score a.2.game_state.score)
        (l.players.filter (fun kv => kv.2.lobby_state.in_game))
      match sorted with
      | [] => ([], [])
      | top :: _ =>
          let top_score := top.2.game_state.score
          ((sorted.filter (fun kv => beqT kv.2.game_state.score top_score)).map (fun kv => kv.1),
           (sorted.filter (fun kv => !beqT kv.2.game_state.score top_score)).map (fun kv => kv.1))
  | .Survival => l.get_survival_winners_losers
  | _ =>
      if l.players.length < 2 then ([], [])
      else
        match rustMax C.fm (l.players.map (fun kv => kv.2.game_state.score)) with
        | none => ([], [])
        | some top =>
            ((l.players.filter (fun kv => beqT kv.2.game_state.score top)).map (fun kv => kv.1),
             (l.players.filter (fun kv => !beqT kv.2.game_state.score top)).map (fun kv => kv.1))

/-- `Lobby::determine_game_end_results` (src/lobby/lobby.rs). -/
def determine_game_end_results (l : Lobby) : List String × List String :=
  match l.lobby_options.gamemode with
  | .CoopSurvival => ([], l.players.map (fun kv => kv.1))
  | _ =>
      ((l.players.filter (fun kv => 0 < kv.2.game_state.lives)).map (fun kv => kv.1),
       (l.players.filter (fun kv => kv.2.game_state.lives = 0)).map (fun kv => kv.1))

/-- `Lobby::apply_life_loss` (src/lobby/lobby.rs).  `saturating_sub` on a
`u8` is `Nat` subtraction.  `C.clash_base` stands for the (undefined under
src/) `CLASH_BASE_DAMAGE` table; the Rust out-of-bounds panic on a stage
beyond the table is not modelled (no claim touches it). -/
def apply_life_loss (C : Ctx) (l : Lobby) (losers : List String) : Lobby :=
  if losers.isEmpty then l
  else
    match l.lobby_options.gamemode with
    | .CoopSurvival =>
        { l with players := l.players.map (fun kv =>
            (kv.1, { kv.2 with game_state :=
              { kv.2.game_state with lives := kv.2.game_state.lives - 1 } })) }
    | .Clash =>
        let l := (losers.enum).foldl
          (fun acc li =>
            let damage := C.clash_base acc.stage.toNat + li.1 + 1
            { acc with players := updPlayer acc.players li.2 (fun p =>
                { p with game_state :=
                  { p.game_state with lives := p.game_state.lives - damage } }) })
          l
        { l with stage := l.stage + 1 }
    | _ =>
        losers.foldl
          (fun acc pid =>
            { acc with players := updPlayer acc.players pid (fun p =>
                { p with game_state :=
                  { p.game_state with lives := p.game_state.lives - 1 } }) })
          l

/-- `Lobby::send_outcome_messages` (src/lobby/lobby.rs). -/
def send_outcome_messages (winners losers : List String) (is_game_end : Bool) : List Out :=
  winners.map (fun pid =>
    (Dest.to pid, if is_game_end then ServerToClient.WinGame else ServerToClient.EndPvp true))
  ++ losers.map (fun pid =>
    (Dest.to pid, if is_game_end then ServerToClient.LoseGame else ServerToClient.EndPvp false))

/-- `Lobby::handle_game_end` (src/lobby/lobby.rs). -/
def handle_game_end (winners losers : List String) : List Out :=
  send_outcome_messages winners losers true

/-- `Lobby::broadcast_game_state_update` (src/lobby/lobby.rs). -/
def broadcast_game_state_update (l : Lobby) (player_id : String) (exclude_player : Bool) :
    List Out :=
  match l.players.lookup player_id with
  | none => []
  | some p =>
      [((if exclude_player then Dest.except player_id else Dest.all),
        ServerToClient.GameStateUpdate player_id p.game_state)]

/-- `Lobby::broadcast_all_game_states` (src/lobby/lobby.rs): one update per
player, addressed by the id stored in the entry profile. -/
def broadcast_all_game_states (l : Lobby) : List Out :=
  l.players.flatMap (fun kv => l.broadcast_game_state_update kv.2.profile.id false)

/-- `Lobby::broadcast_life_updates` (src/lobby/lobby.rs). -/
def broadcast_life_updates (l : Lobby) (player_id : String) : List Out :=
  if l.lobby_options.gamemode = .CoopSurvival then l.broadcast_all_game_states
  else l.broadcast_game_state_update player_id false

/-- `Lobby::broadcast_ready_states` (src/lobby/lobby.rs). -/
def broadcast_ready_states (l : Lobby) : List Out :=
  [(Dest.all, ServerToClient.LobbyReady l.collect_ready_states)]

/-- `Lobby::broadcast_ready_states_except` (src/lobby/lobby.rs). -/
def broadcast_ready_states_except (l : Lobby) (except_player : String) : List Out :=
  [(Dest.except except_player, ServerToClient.LobbyReady l.collect_ready_states)]

/-- `Lobby::start_online_blind` (src/lobby/lobby.rs). -/
def start_online_blind (l : Lobby) : Lobby × List Out :=
  let l := l.reset_ready_states
  let l := l.reset_scores
  (l, (Dest.all, ServerToClient.StartBlind) :: l.broadcast_ready_states)

/-- `Lobby::all_players_dead` (src/lobby/lobby.rs): every player (in game
or not) has zero lives. -/
def all_players_dead (l : Lobby) : Bool :=
  l.players.all (fun kv => kv.2.game_state.lives = 0)

/-- `Lobby::all_other_players_dead` (src/lobby/lobby.rs). -/
def all_other_players_dead (l : Lobby) (except_player_id : String) : Bool :=
  (l.players.filter (fun kv => kv.1 ≠ except_player_id)).all
    (fun kv => kv.2.game_state.lives = 0)

/-- `Lobby::check_game_over` (src/lobby/lobby.rs): returns
`(is_game_over, winners, losers)`. -/
def check_game_over (l : Lobby) : Bool × List String × List String :=
  match l.lobby_options.gamemode with
  | .Survival =>
      if l.all_players_dead then
        let wl := l.get_survival_winners_losers
        (true, wl.1, wl.2)
      else (false, [], [])
  | .CoopSurvival =>
      if l.is_someone_dead then (true, [], l.players.map (fun kv => kv.1))
      else (false, [], [])
  | _ =>
      if l.is_someone_dead then
        let wl := l.determine_game_end_results
        (true, wl.1, wl.2)
      else (false, [], [])

/-- `Lobby::evaluate_online_round` (src/lobby/lobby.rs): returns the new
lobby, the emitted messages in order, and the `game_ended` flag. -/
def evaluate_online_round (C : Ctx) (l : Lobby) : Lobby × List Out × Bool :=
  if !l.all_players_done then (l, [], false)
  else
    let wl := l.check_round_victory C
    let l1 := l.apply_life_loss C wl.2
    let outs1 := l1.broadcast_all_game_states
    let g := l1.check_game_over
    if g.1 then (l1, outs1 ++ handle_game_end g.2.1 g.2.2, true)
    else
      let l2 := l1.reset_scores
      (l2, outs1 ++ send_outcome_messages wl.1 wl.2 false, false)

/-- `Lobby::handle_player_fail_round` (src/lobby/lobby.rs). -/
def handle_player_fail_round (C : Ctx) (l : Lobby) (player_id : String) :
    Lobby × List Out × Bool :=
  let l1 := if l.lobby_options.death_on_round_loss then l.apply_life_loss C [player_id] else l
  let outs1 := l1.broadcast_life_updates player_id
  let g := l1.check_game_over
  if g.1 then (l1, outs1 ++ handle_game_end g.2.1 g.2.2, true)
  else (l1, outs1, false)

/-- `Lobby::get_in_game_statuses` (src/lobby/lobby.rs). -/
def get_in_game_statuses (l : Lobby) : List (String × Bool) :=
  l.players.map (fun kv => (kv.1, kv.2.lobby_state.in_game))

/-- `Lobby::get_player_count_in_game` (src/lobby/lobby.rs). -/
def get_player_count_in_game (l : Lobby) : Nat :=
  (l.players.filter (fun kv => kv.2.lobby_state.in_game)).length

/-- `Lobby::check_survival_furthest_blind_win` (src/lobby/lobby.rs):
emits the game-end fan-out when every other player is dead and this player
holds the max furthest blind; returns the messages and whether it fired. -/
def check_survival_furthest_blind_win (l : Lobby) (player_id : String) :
    List Out × Bool :=
  if l.all_other_players_dead player_id then
    match l.players.lookup player_id with
    | some p =>
        if p.game_state.furthest_blind = l.get_max_furthest_blind then
          let wl := l.get_survival_winners_losers
          (handle_game_end wl.1 wl.2, true)
        else ([], false)
    | none => ([], false)
  else ([], false)

end Lobby

/-! ### Lobby action handlers (src/lobby/handlers.rs) -/

open TalismanNumber in
/-- The score-update expression of `LobbyHandlers::handle_play_hand`
(src/lobby/handlers.rs): keep the old score when `add` fails. -/
def play_hand_new_score (M : FModel) (old inc : TalismanNumber) : TalismanNumber :=
  match TalismanNumber.add M old inc with
  | .ok v => v
  | .error _ => old

/-- `LobbyHandlers::handle_play_hand` (src/lobby/handlers.rs). -/
def handle_play_hand (C : Ctx) (l : Lobby) (player_id : String)
    (score : TalismanNumber) (hands_left : Nat) : Lobby × List Out :=
  match l.players.lookup player_id with
  | none => (l, [])
  | some _ =>
      let l := { l with players := updPlayer l.players player_id (fun p =>
        { p with game_state :=
          { p.game_state with
            score := play_hand_new_score C.fm p.game_state.score score
            hands_left := hands_left } }) }
      let outs1 := l.broadcast_game_state_update player_id true
      let r := l.evaluate_online_round C
      (r.1, outs1 ++ r.2.1)

/-- `LobbyHandlers::update_player_and_broadcast` (src/lobby/handlers.rs). -/
def update_player_and_broadcast (l : Lobby) (player_id : String)
    (exclude_player : Bool) (update_fn : ClientLobbyEntry → ClientLobbyEntry) :
    Lobby × List Out :=
  match l.players.lookup player_id with
  | none => (l, [])
  | some _ =>
      let l := { l with players := updPlayer l.players player_id update_fn }
      (l, l.broadcast_game_state_update player_id exclude_player)

/-- `LobbyHandlers::set_furthest_blind` (src/lobby/handlers.rs). -/
def set_furthest_blind (l : Lobby) (player_id : String) (blind : Nat) :
    Lobby × List Out :=
  match l.players.lookup player_id with
  | none => (l, [])
  | some _ =>
      let l := { l with players := updPlayer l.players player_id (fun p =>
        { p with game_state := { p.game_state with furthest_blind := blind } }) }
      let outs1 := l.broadcast_game_state_update player_id false
      if l.lobby_options.gamemode = .Survival then
        (l, outs1 ++ (l.check_survival_furthest_blind_win player_id).1)
      else (l, outs1)

/-- `LobbyHandlers::handle_fail_timer` (src/lobby/handlers.rs). -/
def handle_fail_timer (C : Ctx) (l : Lobby) (player_id : String) : Lobby × List Out :=
  let l1 := l.apply_life_loss C [player_id]
  let outs1 := l1.broadcast_life_updates player_id
  let g := l1.check_game_over
  let outs2 := if g.1 then Lobby.handle_game_end g.2.1 g.2.2 else []
  (l1, outs1 ++ outs2 ++
    [(Dest.all, ServerToClient.PauseAnteTimer l1.lobby_options.timer_base_seconds)])

/-- `LobbyHandlers::handle_player_action` (src/lobby/handlers.rs).  The
result is `none` exactly when the Rust code panics: the `Discard` arm is
`todo!()`, which unconditionally panics. -/
def handle_player_action (C : Ctx) (l : Lobby) (player_id : String)
    (action : ClientToServer) : Option (Lobby × List Out) :=
  match action with
  | .PlayHand score hands_left => some (handle_play_hand C l player_id score hands_left)
  | .SetLocation location =>
      some (update_player_and_broadcast l player_id false (fun p =>
        { p with game_state := { p.game_state with location := location } }))
  | .Skip blind =>
      some (update_player_and_broadcast l player_id false (fun p =>
        { p with game_state :=
          { p.game_state with
            skips := p.game_state.skips + 1
            furthest_blind := blind } }))
  | .UpdateHandsAndDiscards hands_max discards_max =>
      some (update_player_and_broadcast l player_id false (fun p =>
        { p with game_state :=
          { p.game_state with hands_max := hands_max, discards_max := discards_max } }))
  | .FailRound =>
      let r := l.handle_player_fail_round C player_id
      some (r.1, r.2.1)
  | .UpdateLobbyOptions options =>
      let l := { l with lobby_options := options }
      let l := l.reset_ready_states_to_host_only
      some (l, l.broadcast_ready_states_except player_id ++
        [(Dest.except player_id, ServerToClient.UpdateLobbyOptions l.lobby_options)])
  | .StartGame _ stake =>
      if l.is_player_host player_id then
        let l := l.start_game C
        some (l,
          [(Dest.all, ServerToClient.ResetPlayers (l.players.map (fun kv => kv.2))),
           (Dest.all, ServerToClient.GameStarted l.lobby_options.custom_seed stake)]
          ++ l.broadcast_ready_states
          ++ [(Dest.all, ServerToClient.InGameStatuses l.get_in_game_statuses)])
      else some (l, [])
  | .StopGame =>
      let l := { l with started := false }
      let l := l.reset_game_states false
      let l := { l with lobby_options := { l.lobby_options with custom_seed := "random" } }
      let outs1 := [(Dest.all, ServerToClient.GameStopped)]
      let l := l.reset_ready_states_to_host_only
      some (l, outs1 ++ l.broadcast_ready_states
        ++ [(Dest.all, ServerToClient.InGameStatuses l.get_in_game_statuses)])
  | .SetReady is_ready =>
      let l := l.set_player_ready player_id is_ready
      if l.started then
        let all_ready := (l.players.filter (fun kv => kv.2.lobby_state.in_game)).all
          (fun kv => kv.2.lobby_state.is_ready)
        if all_ready then some l.start_online_blind else some (l, [])
      else some (l, l.broadcast_ready_states_except player_id)
  | .SetBossBlind key chips =>
      if l.is_player_host player_id then
        some ({ l with boss_chips := chips },
          [(Dest.except player_id, ServerToClient.SetBossBlind key)])
      else some (l, [])
  | .SendPlayerDeck deck =>
      some (l, [(Dest.all, ServerToClient.ReceivePlayerDeck player_id deck)])
  | .SendPhantom key =>
      some (l, [(Dest.except player_id, ServerToClient.SendPhantom key)])
  | .RemovePhantom key =>
      some (l, [(Dest.except player_id, ServerToClient.RemovePhantom key)])
  | .Asteroid target =>
      -- `handle_asteroid(&broadcaster, &target, &player_id)`: the call
      -- swaps the parameters, so the message goes to `target` with the
      -- acting player as `sender`.
      some (l, [(Dest.to target, ServerToClient.Asteroid player_id)])
  | .LetsGoGamblingNemesis =>
      some (l, [(Dest.except player_id, ServerToClient.LetsGoGamblingNemesis)])
  | .EatPizza discards =>
      some (l, [(Dest.except player_id, ServerToClient.EatPizza discards)])
  | .SoldJoker =>
      some (l, [(Dest.except player_id, ServerToClient.SoldJoker)])
  | .SpentLastShop amount =>
      some (l, [(Dest.all, ServerToClient.SpentLastShop player_id amount)])
  | .Magnet =>
      some (l, [(Dest.except player_id, ServerToClient.Magnet)])
  | .MagnetResponse key =>
      some (l, [(Dest.except player_id, ServerToClient.MagnetResponse key)])
  | .SetFurthestBlind blind => some (set_furthest_blind l player_id blind)
  | .StartAnteTimer time =>
      some (l, [(Dest.except player_id, ServerToClient.StartAnteTimer time)])
  | .PauseAnteTimer time =>
      some (l, [(Dest.except player_id, ServerToClient.PauseAnteTimer time)])
  | .FailTimer => some (handle_fail_timer C l player_id)
  | .SendPlayerJokers jokers =>
      some (l, [(Dest.except player_id, ServerToClient.ReceivePlayerJokers player_id jokers)])
  | .SendMoney target_player_id =>
      some (l, [(Dest.to target_player_id, ServerToClient.ReceivedMoney)])
  | .Discard => none
  | _ => some (l, [])

/-! ### The lobby task join arm (src/lobby/task.rs) and the client reader
loop (src/client.rs) -/

/-- The `PlayerJoined` arm of `lobby_task` (src/lobby/task.rs): returns
the new lobby, the new `host_id`, and the emitted messages.  The source
sends the `Lobby is already started` / `Lobby is full` error but does not
`continue`, so it always proceeds to insert the player and to answer with
`JoinedLobby`. -/
def lobby_task_player_joined (l : Lobby) (host_id : String) (player_id : String)
    (client_profile : ClientProfile) : Lobby × String × List Out :=
  let errs : List Out :=
    if l.started then [(Dest.to player_id, ServerToClient.Error "Lobby is already started")]
    else if l.is_full then [(Dest.to player_id, ServerToClient.Error "Lobby is full")]
    else []
  let r := l.add_player player_id client_profile
  let l2 := r.1
  let host2 := if l2.players.length = 1 then player_id else host_id
  (l2, host2,
   errs ++ [(Dest.to player_id, ServerToClient.JoinedLobby player_id l2),
            (Dest.except player_id, ServerToClient.PlayerJoinedLobby r.2)])

/-- Observable outcome of one iteration of the `handle_client` reader loop
(src/client.rs). -/
structure ReaderOutcome : Type where
  replies : List ServerToClient
  closes : Bool
  dispatched : Option ClientToServer
deriving DecidableEq, Repr

/-- One iteration of the reader loop of `handle_client` (src/client.rs),
after the 4-byte length header was read.  Inputs: the declared payload
length, whether reading `length` bytes succeeded, the MessagePack decode
result, and (when an action was dispatched) the error string of
`handle_client_action` if it failed.  The source checks the declared
length against no bound; a decode failure is logged and the loop simply
continues. -/
def reader_iteration (length : U32) (read_ok : Bool)
    (parsed : Option ClientToServer) (handler_err : Option String) : ReaderOutcome :=
  -- `length` is only used to size the read buffer.
  let _ := length
  if !read_ok then { replies := [], closes := true, dispatched := none }
  else
    match parsed with
    | some a =>
        match handler_err with
        | some e =>
            { replies := [ServerToClient.Error ("Action failed: " ++ e)]
              closes := false
              dispatched := some a }
        | none => { replies := [], closes := false, dispatched := some a }
    | none => { replies := [], closes := false, dispatched := none }

/-! ### Concrete fixtures used by witnesses and counterexamples -/

/-- A fixed instantiation of the abstract float operations (none of the
concrete evaluations below ever consults them). -/
def M0 : FModel where
  log10 := fun _ => F.fin 0
  pow10 := fun _ => F.fin 0

/-- A fixed context for concrete evaluations. -/
def C0 : Ctx where
  fm := M0
  clash_base := fun _ => 1
  seed8 := "*A1B2C3D"

/-- Profile fixture. -/
def profA : ClientProfile := { id := "A", username := "alice", colour := 1, mod_hash := "" }

/-- Profile fixture. -/
def profB : ClientProfile := { id := "B", username := "bob", colour := 2, mod_hash := "" }

/-- Profile fixture. -/
def profC : ClientProfile := { id := "C", username := "cleo", colour := 3, mod_hash := "" }

/-- A reachable two-player Attrition lobby: created fresh, then `A` and
`B` joined (`A` is host).  Attrition has `max_players = 2`, so this lobby
is full. -/
def lobbyAB : Lobby :=
  (((Lobby.new "QWERT" "ruleset_mp_standard" .Attrition).add_player "A" profA).1.add_player
    "B" profB).1

/-! ### Theorems -/

/-- C2: the claim that handling every decodable `ClientToServer` action
terminates normally is REFUTED by the code: the `Discard` arm of
`LobbyHandlers::handle_player_action` (src/lobby/handlers.rs) is
`todo!()`, which unconditionally panics (as is the `Discard` arm of
`handle_client_action` in src/client.rs).  In the embedding a panic is
`none`: handling a `discard` action diverges for every lobby state and
every player. -/
theorem discard_action_panics (C : Ctx) (l : Lobby) (player_id : String) :
    handle_player_action C l player_id .Discard = none := rfl

/-- C3, counterexample: a frame with declared length 262145 is read and
dispatched normally (no `Error{"Message too large"}` reply, no close), and
a frame of declared length 0 produces no reply at all (its empty payload
fails MessagePack decoding, which is only logged).  This refutes both
halves of the claim. -/
theorem oversized_frame_is_dispatched :
    reader_iteration 262145 true (some .KeepAlive) none =
      { replies := [], closes := false, dispatched := some .KeepAlive }
  ∧ reader_iteration 0 true none none =
      { replies := [], closes := false, dispatched := none } := ⟨rfl, rfl⟩

/-- C3, amended: the reader loop of `handle_client` (src/client.rs) checks
the declared frame length against no bound at all.  Whenever reading the
payload succeeds, the iteration never closes the connection, dispatches
exactly the decode result (regardless of length, including lengths above
262144), behaves identically for every declared length, and replies only
with the `Action failed` error of a failed handler — a decode failure
(e.g. the empty frame) yields no reply. -/
theorem reader_loop_ignores_length (length : U32) (parsed : Option ClientToServer)
    (handler_err : Option String) :
    reader_iteration length true parsed handler_err =
      reader_iteration 0 true parsed handler_err
  ∧ (reader_iteration length true parsed handler_err).closes = false
  ∧ (reader_iteration length true parsed handler_err).dispatched = parsed
  ∧ (reader_iteration length true none handler_err).replies = [] := by
  cases parsed <;> cases handler_err <;> simp [reader_iteration]

/-- C9: `TalismanNumber::add` (src/talisman_number.rs) returns `Ok` for
every combination of the four shapes (and for every model of the float
operations); consequently the `Err` branch of
`LobbyHandlers::handle_play_hand` that keeps the old score is unreachable:
the new score is always exactly the `Ok` value. -/
theorem talisman_add_never_fails (M : FModel) (x y : TalismanNumber) :
    ∃ z, TalismanNumber.add M x y = .ok z ∧ play_hand_new_score M x y = z := by
  cases h : TalismanNumber.add M x y with
  | ok v => exact ⟨v, rfl, by simp [play_hand_new_score, h]⟩
  | error e =>
      exfalso
      cases x <;> cases y <;>
        simp only [TalismanNumber.add] at h <;>
        (try split at h) <;> (try split at h) <;> simp_all

/-- C10: `TalismanNumber::from_value` (src/talisman_number.rs) never
rejects numeric input — every JSON number yields
`Ok(Regular(as_f64 or 0.0))` — and it errors exactly on booleans, null,
arrays, objects carrying neither the `m`/`e` pair nor the `array`/`sign`
pair, and strings on which the string parser fails. -/
theorem from_value_never_rejects_numbers (M : FModel) :
    (∀ (f : Option F) (i : Option Int),
      TalismanNumber.from_value M (.num f i) = .ok (.Regular (f.getD (.fin 0))))
  ∧ (∀ b, (TalismanNumber.from_value M (.bool b)).isOk = false)
  ∧ (TalismanNumber.from_value M .null).isOk = false
  ∧ (∀ xs, (TalismanNumber.from_value M (.arr xs)).isOk = false)
  ∧ (∀ kvs, (TalismanNumber.from_value M (.obj kvs)).isOk =
      ((Json.hasKey kvs "m" && Json.hasKey kvs "e")
        || (Json.hasKey kvs "array" && Json.hasKey kvs "sign")))
  ∧ (∀ s, (TalismanNumber.from_value M (.str s)).isOk =
      (TalismanNumber.fromNotationString M s).isOk) := by
  refine ⟨fun f i => rfl, fun b => rfl, rfl, fun xs => rfl, fun kvs => ?_, fun s => rfl⟩
  simp only [TalismanNumber.from_value]
  split <;> rename_i h
  · simp [Except.isOk, Except.toBool, h]
  · split <;> rename_i h2
    · rw [Bool.not_eq_true] at h
      simp [Except.isOk, Except.toBool, h, h2]
    · rw [Bool.not_eq_true] at h h2
      simp [Except.isOk, Except.toBool, h, h2]

/-- C1: the claim is REFUTED by the code.  In the `PlayerJoined` arm of
`lobby_task` (src/lobby/task.rs) the full-lobby branch sends
`Error{"Lobby is full"}` but does not `continue`, so the join proceeds:
evaluated on the reachable, full two-player Attrition lobby `lobbyAB`
(`max_players = 2`, modelled from the spec since `get_max_players` is
absent from src/), joining a third player `C` emits the error and
nevertheless inserts `C`, leaving `len(players) = 3 > max_players`. -/
theorem full_lobby_join_still_inserts :
    lobbyAB.is_full = true
  ∧ lobbyAB.max_players = 2
  ∧ (lobby_task_player_joined lobbyAB "A" "C" profC).2.2.head? =
      some (Dest.to "C", ServerToClient.Error "Lobby is full")
  ∧ (lobby_task_player_joined lobbyAB "A" "C" profC).1.players.length = 3
  ∧ ((lobby_task_player_joined lobbyAB "A" "C" profC).1.players.lookup "C").isSome = true :=
  ⟨rfl, rfl, rfl, rfl, rfl⟩

/-- C5, counterexample: the `UpdateLobbyOptions` arm of
`handle_player_action` (src/lobby/handlers.rs) has no host guard.  In the
lobby `lobbyAB`, player `B` is not the host, yet handling `B`'s
`updateLobbyOptions` replaces the lobby options and emits two messages —
the claim that the action is silently ignored for non-hosts is false. -/
theorem nonhost_update_options_takes_effect :
    lobbyAB.is_player_host "B" = false
  ∧ lobbyAB.lobby_options.starting_lives = 4
  ∧ ((handle_player_action C0 lobbyAB "B"
        (.UpdateLobbyOptions { attritionDefaults with starting_lives := 9 })).map
      (fun r => (r.1.lobby_options.starting_lives, r.2.length))) = some (9, 2) :=
  ⟨rfl, rfl, rfl⟩

/-- C5, amended: a non-host `startGame` or `setBossBlind` is silently
ignored — the lobby is unchanged and nothing is sent — while
`updateLobbyOptions` is applied for every player, host or not: the options
are replaced, ready states reset to host-only, and the new ready states
plus the new options are broadcast to everyone except the sender. -/
theorem nonhost_privilege_handling (C : Ctx) (l : Lobby) (player_id : String)
    (hnh : l.is_player_host player_id = false) :
    (∀ seed stake, handle_player_action C l player_id (.StartGame seed stake) = some (l, []))
  ∧ (∀ key chips, handle_player_action C l player_id (.SetBossBlind key chips) = some (l, []))
  ∧ (∀ opts,
      handle_player_action C l player_id (.UpdateLobbyOptions opts) =
        some (({ l with lobby_options := opts } : Lobby).reset_ready_states_to_host_only,
          ({ l with lobby_options := opts } : Lobby).reset_ready_states_to_host_only.broadcast_ready_states_except
              player_id
            ++ [(Dest.except player_id,
                  ServerToClient.UpdateLobbyOptions
                    ({ l with lobby_options := opts } : Lobby).reset_ready_states_to_host_only.lobby_options)])) := by
  refine ⟨fun seed stake => ?_, fun key chips => ?_, fun opts => rfl⟩
  · simp [handle_player_action, hnh]
  · simp [handle_player_action, hnh]

/-- C5, witness: the amended theorem applied to the concrete lobby
`lobbyAB` and its non-host player `B`. -/
theorem nonhost_privilege_handling_witness :
    lobbyAB.is_player_host "B" = false
  ∧ ((∀ seed stake, handle_player_action C0 lobbyAB "B" (.StartGame seed stake) =
        some (lobbyAB, []))
    ∧ (∀ key chips, handle_player_action C0 lobbyAB "B" (.SetBossBlind key chips) =
        some (lobbyAB, []))
    ∧ (∀ opts,
        handle_player_action C0 lobbyAB "B" (.UpdateLobbyOptions opts) =
          some (({ lobbyAB with lobby_options := opts } : Lobby).reset_ready_states_to_host_only,
            ({ lobbyAB with lobby_options := opts } : Lobby).reset_ready_states_to_host_only.broadcast_ready_states_except
                "B"
              ++ [(Dest.except "B",
                    ServerToClient.UpdateLobbyOptions
                      ({ lobbyAB with lobby_options := opts } : Lobby).reset_ready_states_to_host_only.lobby_options)]))) :=
  ⟨rfl, nonhost_privilege_handling C0 lobbyAB "B" rfl⟩

/-- A reachable mid-game state: `lobbyAB` with a running game, a nonzero
Clash stage and nonzero boss chips. -/
def lobbyStaged : Lobby :=
  { lobbyAB with started := true, stage := 5, boss_chips := .Regular (.fin 1000) }

/-- C6, counterexample: the `StopGame` arm of `handle_player_action`
(src/lobby/handlers.rs) re-implements only part of `Lobby::stop_game`
(src/lobby/lobby.rs, which is never called): after handling `StopGame` on
`lobbyStaged`, `stage` is still 5 and `boss_chips` still 1000 — the claim
that `stage = 0` and `boss_chips = 0` afterwards is false. -/
theorem stop_game_action_keeps_stage :
    lobbyStaged.stage = 5
  ∧ ((handle_player_action C0 lobbyStaged "A" .StopGame).map
      (fun r => (r.1.stage, r.1.boss_chips))) =
        some (5, .Regular (.fin 1000)) := ⟨rfl, rfl⟩

/-- C6, amended: after any player's `StopGame` action the lobby satisfies
`started = false`, `custom_seed = "random"`, and every player has
`in_game = false`, `lives = starting_lives` and `score = 0`; `stage` and
`boss_chips` are left unchanged (only the uncalled `Lobby::stop_game`
would zero them). -/
theorem stop_game_action_spec (C : Ctx) (l : Lobby) (player_id : String)
    (l2 : Lobby) (outs : List Out)
    (h : handle_player_action C l player_id .StopGame = some (l2, outs)) :
    l2.started = false
  ∧ l2.lobby_options.custom_seed = "random"
  ∧ l2.stage = l.stage
  ∧ l2.boss_chips = l.boss_chips
  ∧ ∀ kv ∈ l2.players,
      kv.2.lobby_state.in_game = false
    ∧ kv.2.game_state.lives = l.lobby_options.starting_lives
    ∧ kv.2.game_state.score = .Regular (.fin 0) := by
  simp only [handle_player_action] at h
  obtain ⟨h1, -⟩ := Prod.mk.injEq .. ▸ Option.some.inj h
  subst h1
  refine ⟨rfl, rfl, rfl, rfl, ?_⟩
  intro kv hkv
  simp only [Lobby.reset_ready_states_to_host_only, Lobby.reset_game_states,
    List.map_map, List.mem_map] at hkv
  obtain ⟨kv0, -, rfl⟩ := hkv
  simp [ClientLobbyEntry.reset_for_game, ClientGameState.default]

/-- C6, witness: the amended theorem applied to the concrete mid-game
lobby `lobbyStaged`, with the handler result computed by `rfl`. -/
theorem stop_game_action_spec_witness :
    (((handle_player_action C0 lobbyStaged "A" .StopGame).getD (lobbyStaged, [])).1.started = false)
  ∧ (((handle_player_action C0 lobbyStaged "A" .StopGame).getD
        (lobbyStaged, [])).1.lobby_options.custom_seed = "random")
  ∧ (((handle_player_action C0 lobbyStaged "A" .StopGame).getD (lobbyStaged, [])).1.stage =
      lobbyStaged.stage)
  ∧ (((handle_player_action C0 lobbyStaged "A" .StopGame).getD (lobbyStaged, [])).1.boss_chips =
      lobbyStaged.boss_chips)
  ∧ ∀ kv ∈ ((handle_player_action C0 lobbyStaged "A" .StopGame).getD (lobbyStaged, [])).1.players,
      kv.2.lobby_state.in_game = false
    ∧ kv.2.game_state.lives = lobbyStaged.lobby_options.starting_lives
    ∧ kv.2.game_state.score = .Regular (.fin 0) :=
  stop_game_action_spec C0 lobbyStaged "A" _ _ rfl

/-- In a player list with pairwise-distinct keys (the `HashMap`
invariant), a key belongs to the keys of a filtered sublist iff the unique
entry carrying that key passes the filter. -/
theorem mem_keys_filter_iff {ps : List (String × ClientLobbyEntry)}
    (hnd : (ps.map Prod.fst).Nodup) (P : String × ClientLobbyEntry → Bool)
    {kv : String × ClientLobbyEntry} (hkv : kv ∈ ps) :
    (kv.1 ∈ (ps.filter P).map Prod.fst) ↔ P kv = true := by
  constructor
  · intro hmem
    obtain ⟨kv2, hkv2, hkey⟩ := List.mem_map.1 hmem
    obtain ⟨hkv2mem, hP⟩ := List.mem_filter.1 hkv2
    have heq : kv2 = kv := List.inj_on_of_nodup_map hnd hkv2mem hkv hkey
    exact heq ▸ hP
  · intro hP
    exact List.mem_map_of_mem Prod.fst (List.mem_filter.2 ⟨hkv, hP⟩)

/-- A reachable Survival lobby mid-game: `A` and `B` joined and started a
game, `B` has run out of lives, `A` still has one. -/
def survLobby : Lobby :=
  let l := (((Lobby.new "SRVVL" "ruleset_mp_standard" .Survival).add_player "A"
    profA).1.add_player "B" profB).1
  let l := ({ l with started := true } : Lobby).reset_game_states true
  let l := { l with players := updPlayer l.players "A" (fun p =>
    { p with game_state := { p.game_state with lives := 1 } }) }
  { l with players := updPlayer l.players "B" (fun p =>
    { p with game_state := { p.game_state with lives := 0 } }) }

/-- C4, counterexample: in the Survival lobby `survLobby` exactly one
in-game player (`A`) has `lives > 0`, so the claim demands game over, yet
`Lobby::check_game_over` (src/lobby/lobby.rs) returns not-over: its
Survival arm requires `all_players_dead`, i.e. **zero** alive players. -/
theorem survival_one_alive_is_not_game_over :
    survLobby.lobby_options.gamemode = .Survival
  ∧ survLobby.players.countP
      (fun kv => kv.2.lobby_state.in_game && decide (0 < kv.2.game_state.lives)) = 1
  ∧ survLobby.check_game_over = (false, [], []) := ⟨rfl, rfl, rfl⟩

/-- `WinGame` membership in the game-end fan-out is exactly membership in
the winner list. -/
theorem mem_handle_game_end_win (w lo : List String) (pid : String) :
    ((Dest.to pid, ServerToClient.WinGame) ∈ Lobby.handle_game_end w lo) ↔ pid ∈ w := by
  simp [Lobby.handle_game_end, Lobby.send_outcome_messages, List.mem_append, List.mem_map]

/-- `LoseGame` membership in the game-end fan-out is exactly membership in
the loser list. -/
theorem mem_handle_game_end_lose (w lo : List String) (pid : String) :
    ((Dest.to pid, ServerToClient.LoseGame) ∈ Lobby.handle_game_end w lo) ↔ pid ∈ lo := by
  simp [Lobby.handle_game_end, Lobby.send_outcome_messages, List.mem_append, List.mem_map]

/-- C4, amended: in Survival mode `check_game_over` reports game over
exactly when **every** player has `lives = 0`; when it does,
`handle_game_end` sends `WinGame` precisely to the players whose
`furthest_blind` equals the lobby maximum and `LoseGame` precisely to the
others. -/
theorem survival_check_game_over_spec (l : Lobby)
    (hmode : l.lobby_options.gamemode = .Survival)
    (hnd : (l.players.map Prod.fst).Nodup) :
    ((l.check_game_over).1 = true ↔ ∀ kv ∈ l.players, kv.2.game_state.lives = 0)
  ∧ ∀ kv ∈ l.players, (l.check_game_over).1 = true →
      (((Dest.to kv.1, ServerToClient.WinGame) ∈
          Lobby.handle_game_end (l.check_game_over).2.1 (l.check_game_over).2.2) ↔
        kv.2.game_state.furthest_blind = l.get_max_furthest_blind)
    ∧ (((Dest.to kv.1, ServerToClient.LoseGame) ∈
          Lobby.handle_game_end (l.check_game_over).2.1 (l.check_game_over).2.2) ↔
        kv.2.game_state.furthest_blind ≠ l.get_max_furthest_blind) := by
  have hover : l.check_game_over =
      (if l.all_players_dead then
        (true, (l.get_survival_winners_losers).1, (l.get_survival_winners_losers).2)
      else (false, [], [])) := by
    simp only [Lobby.check_game_over, hmode]
  have hw : (l.get_survival_winners_losers).1 =
      (l.players.filter (fun kv2 =>
        kv2.2.game_state.furthest_blind = l.get_max_furthest_blind)).map Prod.fst := rfl
  have hlo : (l.get_survival_winners_losers).2 =
      (l.players.filter (fun kv2 =>
        kv2.2.game_state.furthest_blind ≠ l.get_max_furthest_blind)).map Prod.fst := rfl
  constructor
  · rw [hover]
    by_cases hdead : l.all_players_dead
    · rw [if_pos hdead]
      simp only [Lobby.all_players_dead, List.all_eq_true, decide_eq_true_eq] at hdead
      exact ⟨fun _ => hdead, fun _ => rfl⟩
    · rw [if_neg hdead]
      simp only [Lobby.all_players_dead, List.all_eq_true, decide_eq_true_eq] at hdead
      constructor
      · intro hfalse
        exact absurd hfalse (by simp)
      · intro hall
        exact absurd hall hdead
  · intro kv hkv hgo
    by_cases hdead : l.all_players_dead
    · have hgo21 : (l.check_game_over).2.1 = (l.get_survival_winners_losers).1 := by
        rw [hover, if_pos hdead]
      have hgo22 : (l.check_game_over).2.2 = (l.get_survival_winners_losers).2 := by
        rw [hover, if_pos hdead]
      refine ⟨?_, ?_⟩
      · rw [hgo21, hgo22, mem_handle_game_end_win, hw, mem_keys_filter_iff hnd _ hkv]
        simp
      · rw [hgo21, hgo22, mem_handle_game_end_lose, hlo, mem_keys_filter_iff hnd _ hkv]
        simp
    · rw [hover, if_neg hdead] at hgo
      exact absurd hgo (by simp)

/-- `survLobby` after `A` also loses the last life: every player dead. -/
def survLobbyAllDead : Lobby :=
  { survLobby with players := updPlayer survLobby.players "A" (fun p =>
      { p with game_state := { p.game_state with lives := 0 } }) }

/-- C4, witness: the amended theorem applied to the concrete Survival
lobby in which both players are dead. -/
theorem survival_check_game_over_spec_witness :
    ((survLobbyAllDead.check_game_over).1 = true ↔
      ∀ kv ∈ survLobbyAllDead.players, kv.2.game_state.lives = 0)
  ∧ ∀ kv ∈ survLobbyAllDead.players, (survLobbyAllDead.check_game_over).1 = true →
      (((Dest.to kv.1, ServerToClient.WinGame) ∈
          Lobby.handle_game_end (survLobbyAllDead.check_game_over).2.1
            (survLobbyAllDead.check_game_over).2.2) ↔
        kv.2.game_state.furthest_blind = survLobbyAllDead.get_max_furthest_blind)
    ∧ (((Dest.to kv.1, ServerToClient.LoseGame) ∈
          Lobby.handle_game_end (survLobbyAllDead.check_game_over).2.1
            (survLobbyAllDead.check_game_over).2.2) ↔
        kv.2.game_state.furthest_blind ≠ survLobbyAllDead.get_max_furthest_blind) :=
  survival_check_game_over_spec survLobbyAllDead rfl (by decide)

/-- The life-decrement applied to one loser by the default arm of
`Lobby::apply_life_loss`. -/
def decLifeEntry (e : ClientLobbyEntry) : ClientLobbyEntry :=
  { e with game_state := { e.game_state with lives := e.game_state.lives - 1 } }

/-- `updPlayer` only rewrites the entry under the targeted key. -/
theorem lookup_updPlayer (ps : List (String × ClientLobbyEntry)) (pid q : String)
    (f : ClientLobbyEntry → ClientLobbyEntry) :
    (updPlayer ps pid f).lookup q =
      if q = pid then (ps.lookup q).map f else ps.lookup q := by
  induction ps with
  | nil => by_cases hq : q = pid <;> simp [updPlayer, hq]
  | cons hd tl ih =>
      obtain ⟨k, v⟩ := hd
      by_cases hk : k = pid
      · subst hk
        by_cases hq : q = k
        · subst hq
          simp [updPlayer, List.lookup_cons]
        · have h1 : (q == k) = false := beq_eq_false_iff_ne.mpr hq
          simp only [updPlayer] at ih
          simp [updPlayer, List.lookup_cons, h1, hq, ih]
      · by_cases hq : q = k
        · subst hq
          simp [updPlayer, List.lookup_cons, hk]
        · have h1 : (q == k) = false := beq_eq_false_iff_ne.mpr hq
          simp only [updPlayer] at ih
          simp [updPlayer, List.lookup_cons, h1, hk, ih]

/-- Folding the per-loser life decrement over an association list
decrements each key by its number of occurrences in the loser list. -/
theorem lookup_foldl_dec (losers : List String) (ps : List (String × ClientLobbyEntry))
    (q : String) :
    (losers.foldl (fun acc pid => updPlayer acc pid decLifeEntry) ps).lookup q =
      (ps.lookup q).map (fun e =>
        { e with game_state := { e.game_state with
            lives := e.game_state.lives - losers.count q } }) := by
  induction losers generalizing ps with
  | nil => cases h : ps.lookup q <;> simp [h]
  | cons p rest ih =>
      simp only [List.foldl_cons]
      rw [ih, lookup_updPlayer]
      by_cases hq : q = p
      · rw [if_pos hq]
        cases h : ps.lookup q with
        | none => simp
        | some e =>
            have hcount : (p :: rest).count q = rest.count q + 1 := by
              simp [List.count_cons, hq]
            simp [decLifeEntry, hcount, Nat.sub_sub, Nat.add_comm]
      · rw [if_neg hq]
        have hcount : (p :: rest).count q = rest.count q := by
          simp [List.count_cons, Ne.symm hq]
        rw [hcount]

/-- The lobby-level loser fold of `apply_life_loss` acts on the player
list componentwise. -/
theorem foldl_upd_players (losers : List String) (l : Lobby)
    (g : ClientLobbyEntry → ClientLobbyEntry) :
    (losers.foldl (fun acc pid => { acc with players := updPlayer acc.players pid g }) l).players
      = losers.foldl (fun ps pid => updPlayer ps pid g) l.players := by
  induction losers generalizing l with
  | nil => rfl
  | cons p rest ih =>
      simp only [List.foldl_cons]
      exact ih _

/-- In a list with pairwise-distinct keys, counting the entries that carry
a member's key and satisfy `P` yields 1 or 0 according to `P` at that
member. -/
theorem countP_key_unique {ps : List (String × ClientLobbyEntry)}
    (hnd : (ps.map Prod.fst).Nodup) {kv : String × ClientLobbyEntry} (hkv : kv ∈ ps)
    (P : String × ClientLobbyEntry → Bool) :
    ps.countP (fun kv2 => (kv2.1 == kv.1) && P kv2) = if P kv then 1 else 0 := by
  induction ps with
  | nil => cases hkv
  | cons hd tl ih =>
      rw [List.map_cons, List.nodup_cons] at hnd
      rcases List.mem_cons.1 hkv with rfl | hmem
      · have hzero : tl.countP (fun kv2 => (kv2.1 == kv.1) && P kv2) = 0 := by
          rw [List.countP_eq_zero]
          intro kv2 hkv2
          have : kv2.1 ≠ kv.1 := fun h => hnd.1 (h ▸ List.mem_map_of_mem Prod.fst hkv2)
          simp [this]
        rw [List.countP_cons, hzero]
        simp
      · have hne : hd.1 ≠ kv.1 :=
          fun h => hnd.1 (h ▸ List.mem_map_of_mem Prod.fst hmem)
        rw [List.countP_cons, ih hnd.2 hmem]
        simp [hne]

/-- A member of an association list with pairwise-distinct keys is exactly
what `lookup` finds under its key. -/
theorem lookup_of_mem_nodup {ps : List (String × ClientLobbyEntry)}
    (hnd : (ps.map Prod.fst).Nodup) {kv : String × ClientLobbyEntry} (hkv : kv ∈ ps) :
    ps.lookup kv.1 = some kv.2 := by
  induction ps with
  | nil => cases hkv
  | cons hd tl ih =>
      obtain ⟨k, v⟩ := hd
      rw [List.map_cons, List.nodup_cons] at hnd
      rcases List.mem_cons.1 hkv with rfl | hmem
      · simp [List.lookup_cons]
      · have hne : kv.1 ≠ k := by
          intro h
          have hmm := List.mem_map_of_mem Prod.fst hmem
          rw [h] at hmm
          exact hnd.1 hmm
        have h1 : (kv.1 == k) = false := beq_eq_false_iff_ne.mpr hne
        simp [List.lookup_cons, h1, ih hnd.2 hmem]

/-- The default arm of `Lobby::apply_life_loss` with a nonempty loser list
is the per-loser decrement fold on the player list. -/
theorem apply_life_loss_default_players (C : Ctx) (l : Lobby) (losers : List String)
    (hmode : l.lobby_options.gamemode = .Attrition ∨ l.lobby_options.gamemode = .Showdown)
    (hne : losers ≠ []) :
    (l.apply_life_loss C losers).players =
      losers.foldl (fun ps pid => updPlayer ps pid decLifeEntry) l.players := by
  have hne2 : losers.isEmpty = false := by
    cases losers with
    | nil => exact absurd rfl hne
    | cons a b => rfl
  rcases hmode with h | h <;>
    (simp only [Lobby.apply_life_loss, h, hne2, Bool.false_eq_true, if_false]
     exact foldl_upd_players losers l decLifeEntry)

open TalismanNumber in
/-- C7: in Attrition and Showdown, once round evaluation fires with at
least two players, `check_round_victory` returns as winners exactly the
players whose score equals the maximum score (the `Iterator::max` of all
scores under the score ordering, equality being the structural `PartialEq`)
and as losers all others, and `apply_life_loss` removes exactly one life
from each loser by saturating subtraction while leaving winners untouched;
with fewer than two players both steps are no-ops. -/
theorem attrition_showdown_round_spec (C : Ctx) (l : Lobby)
    (hmode : l.lobby_options.gamemode = .Attrition ∨ l.lobby_options.gamemode = .Showdown)
    (hnd : (l.players.map Prod.fst).Nodup) :
    (2 ≤ l.players.length →
      ∃ top, rustMax C.fm (l.players.map (fun kv => kv.2.game_state.score)) = some top
        ∧ (l.check_round_victory C).1 =
            (l.players.filter (fun kv => beqT kv.2.game_state.score top)).map Prod.fst
        ∧ (l.check_round_victory C).2 =
            (l.players.filter (fun kv => !beqT kv.2.game_state.score top)).map Prod.fst
        ∧ ∀ kv ∈ l.players,
            ((l.apply_life_loss C (l.check_round_victory C).2).players.lookup kv.1) =
              some (if beqT kv.2.game_state.score top then kv.2
                    else { kv.2 with game_state := { kv.2.game_state with
                      lives := kv.2.game_state.lives - 1 } }))
  ∧ (l.players.length < 2 →
      l.check_round_victory C = ([], []) ∧ l.apply_life_loss C [] = l) := by
  constructor
  · intro hlen
    have hnlt : ¬l.players.length < 2 := not_lt.mpr hlen
    obtain ⟨hd, tl, hcons⟩ : ∃ hd tl, l.players = hd :: tl := by
      cases hp : l.players with
      | nil => rw [hp] at hlen; simp at hlen
      | cons a b => exact ⟨a, b, rfl⟩
    obtain ⟨top, hmax⟩ :
        ∃ top, rustMax C.fm (l.players.map (fun kv => kv.2.game_state.score)) = some top := by
      rw [hcons]
      exact ⟨_, rfl⟩
    have hcrv : l.check_round_victory C =
        ((l.players.filter (fun kv => beqT kv.2.game_state.score top)).map Prod.fst,
         (l.players.filter (fun kv => !beqT kv.2.game_state.score top)).map Prod.fst) := by
      rcases hmode with h | h <;>
        (simp only [Lobby.check_round_victory, h]
         rw [if_neg hnlt, hmax])
    refine ⟨top, hmax, by rw [hcrv], by rw [hcrv], ?_⟩
    intro kv hkv
    rw [hcrv]
    by_cases hlos :
        (l.players.filter (fun kv => !beqT kv.2.game_state.score top)).map Prod.fst = []
    · rw [hlos]
      have hself : l.apply_life_loss C [] = l := rfl
      rw [hself, lookup_of_mem_nodup hnd hkv]
      have hfilter : l.players.filter (fun kv => !beqT kv.2.game_state.score top) = [] :=
        List.map_eq_nil_iff.1 hlos
      have hbeq : beqT kv.2.game_state.score top = true := by
        have := List.filter_eq_nil_iff.1 hfilter kv hkv
        simpa using this
      rw [if_pos hbeq]
    · rw [apply_life_loss_default_players C l _ hmode hlos, lookup_foldl_dec,
        lookup_of_mem_nodup hnd hkv]
      have hcnt :
          ((l.players.filter (fun kv => !beqT kv.2.game_state.score top)).map Prod.fst).count
              kv.1 =
            if beqT kv.2.game_state.score top then 0 else 1 := by
        have h1 :
            ((l.players.filter (fun kv => !beqT kv.2.game_state.score top)).map Prod.fst).count
                kv.1 =
              l.players.countP
                (fun kv2 => (kv2.1 == kv.1) && !beqT kv2.2.game_state.score top) := by
          rw [show ∀ (xs : List String) (a : String), xs.count a = xs.countP (· == a) from
            fun xs a => rfl]
          rw [List.countP_map, List.countP_filter]
          rfl
        rw [h1, countP_key_unique hnd hkv]
        cases hbeq : beqT kv.2.game_state.score top <;> simp [hbeq]
      rw [hcnt]
      cases hbeq : beqT kv.2.game_state.score top <;> simp [hbeq]
  · intro hlt
    constructor
    · rcases hmode with h | h <;>
        (simp only [Lobby.check_round_victory, h]
         rw [if_pos hlt])
    · rfl

/-- `lobbyAB` mid-round: game started, `A` scored 100, `B` scored 50. -/
def pvpLobby : Lobby :=
  let l := ({ lobbyAB with started := true } : Lobby).reset_game_states true
  let l := { l with players := updPlayer l.players "A" (fun p =>
    { p with game_state := { p.game_state with score := .Regular (.fin 100) } }) }
  { l with players := updPlayer l.players "B" (fun p =>
    { p with game_state := { p.game_state with score := .Regular (.fin 50) } }) }

open TalismanNumber in
/-- C7, witness: the round-evaluation theorem applied to the concrete
two-player Attrition lobby `pvpLobby`. -/
theorem attrition_showdown_round_spec_witness :
    (2 ≤ pvpLobby.players.length →
      ∃ top, rustMax C0.fm (pvpLobby.players.map (fun kv => kv.2.game_state.score)) = some top
        ∧ (pvpLobby.check_round_victory C0).1 =
            (pvpLobby.players.filter (fun kv => beqT kv.2.game_state.score top)).map Prod.fst
        ∧ (pvpLobby.check_round_victory C0).2 =
            (pvpLobby.players.filter (fun kv => !beqT kv.2.game_state.score top)).map Prod.fst
        ∧ ∀ kv ∈ pvpLobby.players,
            ((pvpLobby.apply_life_loss C0 (pvpLobby.check_round_victory C0).2).players.lookup
                kv.1) =
              some (if beqT kv.2.game_state.score top then kv.2
                    else { kv.2 with game_state := { kv.2.game_state with
                      lives := kv.2.game_state.lives - 1 } }))
  ∧ (pvpLobby.players.length < 2 →
      pvpLobby.check_round_victory C0 = ([], []) ∧ pvpLobby.apply_life_loss C0 [] = pvpLobby) :=
  attrition_showdown_round_spec C0 pvpLobby (Or.inl rfl) (by decide)

/-- `partial_cmp` on `f64` is antisymmetric: swapping the operands swaps
the ordering. -/
theorem F.cmpOpt_swap (a b : F) : F.cmpOpt b a = (F.cmpOpt a b).map Ordering.swap := by
  cases a <;> cases b <;>
    simp only [F.cmpOpt, F.flt, F.feq, Option.map_some', Option.map_none'] <;>
    try rfl
  rename_i p q
  rcases lt_trichotomy p q with h | rfl | h
  · simp [h, asymm h, (ne_of_gt h), (ne_of_lt h), Ordering.swap]
  · simp [Ordering.swap]
  · simp [h, asymm h, (ne_of_gt h), (ne_of_lt h), Ordering.swap]

/-- On non-NaN values `partial_cmp` is always `some`. -/
theorem F.cmpOpt_isSome {a b : F} (ha : a.isNaN = false) (hb : b.isNaN = false) :
    ∃ o, F.cmpOpt a b = some o := by
  cases a <;> cases b <;> simp_all [F.cmpOpt, F.isNaN]

/-- On non-NaN values, not being `Greater` under `partial_cmp` is the
IEEE `<=`. -/
theorem F.cmpOpt_ne_gt_iff {a b : F} (ha : a.isNaN = false) (hb : b.isNaN = false) :
    (F.cmpOpt a b ≠ some .gt) ↔ F.fle a b = true := by
  cases a <;> cases b <;> simp_all [F.cmpOpt, F.flt, F.feq, F.fle, F.isNaN]
  rename_i p q
  constructor
  · intro h
    by_contra hle
    rw [not_le] at hle
    have h1 : ¬p < q := fun hlt => absurd hlt (asymm hle)
    have h2 : ¬p = q := fun he => absurd he (ne_of_gt hle)
    simp [h1, h2] at h
  · intro hle
    rcases lt_or_eq_of_le hle with h | h
    · simp [h]
    · simp [h, lt_irrefl]

/-- IEEE `<=` is transitive away from NaN. -/
theorem F.fle_trans {a b c : F} (hab : F.fle a b = true) (hbc : F.fle b c = true) :
    F.fle a c = true := by
  cases a <;> cases b <;> cases c <;> simp_all [F.fle]
  exact le_trans hab hbc

open TalismanNumber in
/-- `"1"` parses to the finite double 1. -/
theorem rustParseF64_one : rustParseF64 "1".toList = some (F.fin 1) := by
  rw [show rustParseF64 "1".toList =
    (if f64OverflowBound ≤ |(1:ℚ) + 0 / 10^(0:Nat)|
     then some (if (1:ℚ) + 0 / 10^(0:Nat) < 0 then F.ninf else F.inf)
     else some (F.fin ((1:ℚ) + 0 / 10^(0:Nat)))) from rfl]
  rw [if_neg (by unfold f64OverflowBound; norm_num)]
  norm_num

/-- `"999"` parses to the finite double 999. -/
theorem rustParseF64_999 : rustParseF64 "999".toList = some (F.fin 999) := by
  rw [show rustParseF64 "999".toList =
    (if f64OverflowBound ≤ |(999:ℚ) + 0 / 10^(0:Nat)|
     then some (if (999:ℚ) + 0 / 10^(0:Nat) < 0 then F.ninf else F.inf)
     else some (F.fin ((999:ℚ) + 0 / 10^(0:Nat)))) from rfl]
  rw [if_neg (by unfold f64OverflowBound; norm_num)]
  norm_num

/-- `"400"` parses to the finite double 400. -/
theorem rustParseF64_400 : rustParseF64 "400".toList = some (F.fin 400) := by
  rw [show rustParseF64 "400".toList =
    (if f64OverflowBound ≤ |(400:ℚ) + 0 / 10^(0:Nat)|
     then some (if (400:ℚ) + 0 / 10^(0:Nat) < 0 then F.ninf else F.inf)
     else some (F.fin ((400:ℚ) + 0 / 10^(0:Nat)))) from rfl]
  rw [if_neg (by unfold f64OverflowBound; norm_num)]
  norm_num

/-- `"1e999"` overflows the double range, so Rust parses it as infinity. -/
theorem rustParseF64_1e999 : rustParseF64 "1e999".toList = some F.inf := by
  rw [show rustParseF64 "1e999".toList =
    (if f64OverflowBound ≤ |((1:ℚ) + 0 / 10^(0:Nat)) * (10:ℚ)^(999:Int)|
     then some (if ((1:ℚ) + 0 / 10^(0:Nat)) * (10:ℚ)^(999:Int) < 0 then F.ninf else F.inf)
     else some (F.fin (((1:ℚ) + 0 / 10^(0:Nat)) * (10:ℚ)^(999:Int)))) from rfl]
  rw [if_pos (by unfold f64OverflowBound; norm_num)]
  norm_num

/-- `"1e400"` overflows the double range, so Rust parses it as infinity. -/
theorem rustParseF64_1e400 : rustParseF64 "1e400".toList = some F.inf := by
  rw [show rustParseF64 "1e400".toList =
    (if f64OverflowBound ≤ |((1:ℚ) + 0 / 10^(0:Nat)) * (10:ℚ)^(400:Int)|
     then some (if ((1:ℚ) + 0 / 10^(0:Nat)) * (10:ℚ)^(400:Int) < 0 then F.ninf else F.inf)
     else some (F.fin (((1:ℚ) + 0 / 10^(0:Nat)) * (10:ℚ)^(400:Int)))) from rfl]
  rw [if_pos (by unfold f64OverflowBound; norm_num)]
  norm_num

open TalismanNumber in
/-- The mantissa part `"1"` through the fallible wrapper. -/
theorem parseF64E_one : parseF64E "1".toList = .ok (F.fin 1) := by
  simp only [parseF64E, rustParseF64_one]

open TalismanNumber in
/-- The wire string `"1e999"` becomes `Big{m:1, e:999}`: the plain `f64`
parse overflows, so the manual scientific split takes over. -/
theorem fromNotationString_1e999 :
    fromNotationString M0 "1e999" = .ok (.Big (.fin 1) (.fin 999)) := by
  have step : fromNotationString M0 "1e999" =
      (match rustParseF64 "1e999".toList with
       | some v => if v.isFinite = true then Except.ok (TalismanNumber.Regular v)
                   else parseScientific "1e999".toList
       | none => parseScientific "1e999".toList) := rfl
  rw [step, rustParseF64_1e999]
  rw [show parseScientific "1e999".toList =
    (parseF64E "1".toList >>= fun m => parseF64E "999".toList >>= fun e =>
      pure (TalismanNumber.Big m e)) from rfl]
  rw [parseF64E_one]
  rw [show parseF64E "999".toList = .ok (F.fin 999) from by
    simp only [parseF64E, rustParseF64_999]]
  rfl

open TalismanNumber in
/-- The wire string `"1enan"` becomes `Big{m:1, e:NaN}`: the plain `f64`
parse fails, the manual split parses the exponent part `"nan"` as NaN. -/
theorem fromNotationString_1enan :
    fromNotationString M0 "1enan" = .ok (.Big (.fin 1) F.nan) := by
  have step : fromNotationString M0 "1enan" = parseScientific "1enan".toList := rfl
  rw [step]
  rw [show parseScientific "1enan".toList =
    (parseF64E "1".toList >>= fun m => parseF64E "nan".toList >>= fun e =>
      pure (TalismanNumber.Big m e)) from rfl]
  rw [parseF64E_one]
  rfl

open TalismanNumber in
/-- The wire string `"1e400"` becomes `Big{m:1, e:400}`. -/
theorem fromNotationString_1e400 :
    fromNotationString M0 "1e400" = .ok (.Big (.fin 1) (.fin 400)) := by
  have step : fromNotationString M0 "1e400" =
      (match rustParseF64 "1e400".toList with
       | some v => if v.isFinite = true then Except.ok (TalismanNumber.Regular v)
                   else parseScientific "1e400".toList
       | none => parseScientific "1e400".toList) := rfl
  rw [step, rustParseF64_1e400]
  rw [show parseScientific "1e400".toList =
    (parseF64E "1".toList >>= fun m => parseF64E "400".toList >>= fun e =>
      pure (TalismanNumber.Big m e)) from rfl]
  rw [parseF64E_one]
  rw [show parseF64E "400".toList = .ok (F.fin 400) from by
    simp only [parseF64E, rustParseF64_400]]
  rfl

open TalismanNumber in
/-- C8, counterexample: three values parsed from admissible wire strings
on which the comparison is not transitive, so it is not a total order.
With `X = parse "1e999" = Big{1,999}`, `Y = parse "1enan" = Big{1,NaN}`
and `Z = parse "1e400" = Big{1,400}`: `cmp X Y = Equal` and
`cmp Y Z = Equal` (NaN magnitude collapses `partial_cmp` to `Equal`), yet
`cmp X Z = Greater`.  (`M0` is immaterial: none of these values consults
`log10` or `pow10`.) -/
theorem score_cmp_not_transitive_on_parsed :
    fromNotationString M0 "1e999" = .ok (.Big (.fin 1) (.fin 999))
  ∧ fromNotationString M0 "1enan" = .ok (.Big (.fin 1) F.nan)
  ∧ fromNotationString M0 "1e400" = .ok (.Big (.fin 1) (.fin 400))
  ∧ cmpT M0 (.Big (.fin 1) (.fin 999)) (.Big (.fin 1) F.nan) = .eq
  ∧ cmpT M0 (.Big (.fin 1) F.nan) (.Big (.fin 1) (.fin 400)) = .eq
  ∧ cmpT M0 (.Big (.fin 1) (.fin 999)) (.Big (.fin 1) (.fin 400)) = .gt :=
  ⟨fromNotationString_1e999, fromNotationString_1enan, fromNotationString_1e400,
   by decide, by decide, by decide⟩

open TalismanNumber in
/-- The score comparison is antisymmetric under operand swap (this holds
even at NaN magnitudes, where both directions collapse to `Equal`). -/
theorem cmpT_swap (M : FModel) (x y : TalismanNumber) :
    (cmpT M x y).swap = cmpT M y x := by
  cases hx : x.is_negative <;> cases hy : y.is_negative <;>
    simp only [cmpT, hx, hy]
  case false.true => rfl
  case true.false => rfl
  all_goals
    rw [F.cmpOpt_swap (estimate_magnitude M x) (estimate_magnitude M y)]
    cases F.cmpOpt (estimate_magnitude M x) (estimate_magnitude M y) with
    | none => rfl
    | some o => cases o <;> rfl

open TalismanNumber in
/-- Mutual non-Greater comparisons force equality-by-comparison. -/
theorem cmpT_antisymm (M : FModel) (x y : TalismanNumber)
    (h1 : cmpT M x y ≠ .gt) (h2 : cmpT M y x ≠ .gt) : cmpT M x y = .eq := by
  have hs := cmpT_swap M x y
  cases hxy : cmpT M x y
  · rw [hxy] at hs
    exact absurd hs.symm h2
  · rfl
  · exact absurd hxy h1

open TalismanNumber in
/-- The score comparison is transitive on values whose estimated magnitude
is not NaN. -/
theorem cmpT_le_trans (M : FModel) (x y z : TalismanNumber)
    (hx : (estimate_magnitude M x).isNaN = false)
    (hy : (estimate_magnitude M y).isNaN = false)
    (hz : (estimate_magnitude M z).isNaN = false)
    (hxy : cmpT M x y ≠ .gt) (hyz : cmpT M y z ≠ .gt) : cmpT M x z ≠ .gt := by
  obtain ⟨o1, ho1⟩ := F.cmpOpt_isSome hx hy
  obtain ⟨o2, ho2⟩ := F.cmpOpt_isSome hy hz
  obtain ⟨o3, ho3⟩ := F.cmpOpt_isSome hx hz
  cases hnx : x.is_negative <;> cases hny : y.is_negative <;> cases hnz : z.is_negative <;>
    simp only [cmpT, hnx, hny, hnz, ho1, ho2, ho3] at hxy hyz ⊢
  case false.false.false =>
    have l1 : F.fle (estimate_magnitude M x) (estimate_magnitude M y) = true :=
      (F.cmpOpt_ne_gt_iff hx hy).1 (by rw [ho1]; simpa using hxy)
    have l2 : F.fle (estimate_magnitude M y) (estimate_magnitude M z) = true :=
      (F.cmpOpt_ne_gt_iff hy hz).1 (by rw [ho2]; simpa using hyz)
    have l3 := (F.cmpOpt_ne_gt_iff hx hz).2 (F.fle_trans l1 l2)
    rw [ho3] at l3
    simpa using l3
  case false.false.true => exact absurd rfl hyz
  case false.true.false => exact absurd rfl hxy
  case false.true.true => exact absurd rfl hxy
  case true.false.false => simp
  case true.false.true => exact absurd rfl hyz
  case true.true.false => simp
  case true.true.true =>
    have l1 : F.fle (estimate_magnitude M x) (estimate_magnitude M y) = true :=
      (F.cmpOpt_ne_gt_iff hx hy).1 (by rw [ho1]; simpa using hxy)
    have l2 : F.fle (estimate_magnitude M y) (estimate_magnitude M z) = true :=
      (F.cmpOpt_ne_gt_iff hy hz).1 (by rw [ho2]; simpa using hyz)
    have l3 := (F.cmpOpt_ne_gt_iff hx hz).2 (F.fle_trans l1 l2)
    rw [ho3] at l3
    simpa using l3

open TalismanNumber in
/-- C8, amended: the `Ord` implementation on score values is total and
consistent under operand swap, and mutually non-Greater pairs compare
`Equal` — but transitivity only holds on values whose estimated magnitude
is not NaN.  Parsing can produce NaN-magnitude values (the wire string
`"1enan"`), on which transitivity — and hence the total order — fails. -/
theorem score_cmp_total_order_away_from_nan (M : FModel) :
    (∀ x y : TalismanNumber, (cmpT M x y).swap = cmpT M y x)
  ∧ (∀ x y : TalismanNumber,
      cmpT M x y ≠ .gt → cmpT M y x ≠ .gt → cmpT M x y = .eq)
  ∧ (∀ x y z : TalismanNumber,
      (estimate_magnitude M x).isNaN = false →
      (estimate_magnitude M y).isNaN = false →
      (estimate_magnitude M z).isNaN = false →
      cmpT M x y ≠ .gt → cmpT M y z ≠ .gt → cmpT M x z ≠ .gt) :=
  ⟨cmpT_swap M, cmpT_antisymm M, cmpT_le_trans M⟩

open TalismanNumber in
/-- C8, witness: the amended theorem applied at concrete non-NaN values
`Big{1,2} ≤ Big{1,3} ≤ Big{1,4}`, discharging every hypothesis. -/
theorem score_cmp_total_order_witness :
    (estimate_magnitude M0 (.Big (.fin 1) (.fin 2))).isNaN = false
  ∧ cmpT M0 (.Big (.fin 1) (.fin 2)) (.Big (.fin 1) (.fin 3)) ≠ .gt
  ∧ cmpT M0 (.Big (.fin 1) (.fin 2)) (.Big (.fin 1) (.fin 4)) ≠ .gt :=
  ⟨by decide, by decide,
   (score_cmp_total_order_away_from_nan M0).2.2
     (.Big (.fin 1) (.fin 2)) (.Big (.fin 1) (.fin 3)) (.Big (.fin 1) (.fin 4))
     (by decide) (by decide) (by decide) (by decide) (by decide)⟩

